import Mathlib

/-!
# blogg-api: a shallow embedding of the repository layer and the request handlers

The relational store behind `pool.query` is PostgreSQL; its state is modelled as three
lists of rows plus the three `SERIAL` sequences, with the constraints declared in
`src/config/database.mjs` (primary keys, `NOT NULL`, foreign keys, the 32-bit `INT`
type of `likes`).  Every repository function of `src/repositories/*.mjs` becomes a
function from a store state to a result and a new store state; every route of
`src/routes/*.mjs` becomes a function from a store state and a request to an outcome
and a new store state.

The repository functions take identifiers as integers.  The store refuses a request
number that does not fit the 32-bit `INT` type of the identifier columns; that is
`intParam`, applied where a handler passes a number of the request on to the
repository.  The two `UPDATE` statements on title and content, whose parameters are
the subject of a claim of their own, refuse such an identifier themselves, and a text
with the character U+0000.  A JavaScript number that is a finite integer is kept
exact.

Each handler suspends at its store calls; the store runs one statement at a time.  The
handlers of the two `likes` routes are also given as jobs, one store call each, to be
run under a schedule.
-/

namespace BloggApi

/-! ## JavaScript values -/

/-- A JavaScript number, as far as the handlers can tell numbers apart. -/
inductive JsNum where
  | nan
  | infinite
  | int (i : Int)
  | nonInt
  deriving DecidableEq, Repr

/-- A JavaScript value found in a request (a header, a query parameter, a body field). -/
inductive JsVal where
  | undefined
  | null
  | bool (b : Bool)
  | num (x : JsNum)
  | str (s : String)
  | object
  deriving DecidableEq, Repr

/-- The `length` of a JavaScript string: UTF-16 code units, so a character outside the
basic plane counts twice. -/
def jsLength (s : String) : Nat :=
  (s.toList.map (fun c => if c.val ≥ 0x10000 then 2 else 1)).sum

/-- White space skipped by `Number.parseInt` (WhiteSpace and LineTerminator). -/
def isJsWhiteSpace (c : Char) : Bool :=
  let n := c.toNat
  n == 9 || n == 10 || n == 11 || n == 12 || n == 13 || n == 32 || n == 160 ||
  n == 0x1680 || (0x2000 ≤ n && n ≤ 0x200A) || n == 0x2028 || n == 0x2029 ||
  n == 0x202F || n == 0x205F || n == 0x3000 || n == 0xFEFF

/-- The value of a digit in the given radix (10 or 16), if it is one. -/
def digitValue (radix : Nat) (c : Char) : Option Nat :=
  let n := c.toNat
  if 48 ≤ n ∧ n ≤ 57 then some (n - 48)
  else if radix = 16 ∧ 97 ≤ n ∧ n ≤ 102 then some (n - 87)
  else if radix = 16 ∧ 65 ≤ n ∧ n ≤ 70 then some (n - 55)
  else none

/-- The longest run of digits at the head of the list, most significant first. -/
def takeDigits (radix : Nat) : List Char → List Nat
  | [] => []
  | c :: cs =>
    match digitValue radix c with
    | some d => d :: takeDigits radix cs
    | none => []

/-- The number written by a list of digits. -/
def digitsValue (radix : Nat) (ds : List Nat) : Nat :=
  ds.foldl (fun acc d => acc * radix + d) 0

/-- The power `2^1024`, above every finite JavaScript number. -/
def DOUBLE_LIMIT : Nat :=
  179769313486231590772930519078902473361797697894230657273430081157732675805500963132708477322407536021120113879871393357658789768814416622492847430639474124377767893424865485276302219601246094119453082952085005768838150682342462881473913110540827237163350510684586298239947245938479716304835356329624224137216

/-- `Number.parseInt(s)` with no radix argument: leading white space, a sign, an optional
`0x`, then the longest run of digits; `NaN` when there is no digit.  A value of
`2^1024` or more is `Infinity`; below it the integer is kept exact. -/
def parseInt (s : String) : JsNum :=
  let cs := s.toList.dropWhile isJsWhiteSpace
  let (neg, cs) :=
    match cs with
    | '-' :: rest => (true, rest)
    | '+' :: rest => (false, rest)
    | _ => (false, cs)
  let (radix, cs) :=
    match cs with
    | '0' :: 'x' :: rest => (16, rest)
    | '0' :: 'X' :: rest => (16, rest)
    | _ => (10, cs)
  match takeDigits radix cs with
  | [] => .nan
  | ds =>
    let v := digitsValue radix ds
    if v ≥ DOUBLE_LIMIT then .infinite
    else if neg then .int (-(v : Int)) else .int v

/-- A number as it appears when concatenated into a message (integers in decimal). -/
def JsNum.toMessage : JsNum → String
  | .nan => "NaN"
  | .infinite => "Infinity"
  | .int i => toString i
  | .nonInt => "?"

/-- `String.prototype.toLowerCase`, on the letters A to Z. -/
def jsToLowerCase (s : String) : List Char :=
  s.toList.map Char.toLower

/-! ## Validation (`src/utilities/validation.mjs`) -/

/-- Modelled from the spec: `src/utilities/validation.mjs` is missing; `validateString(v)`
is true iff `v` is a non-empty textual value. -/
def validateString : JsVal → Bool
  | .str s => s ≠ ""
  | _ => false

/-- Modelled from the spec: `src/utilities/validation.mjs` is missing; `validateNumber(v)`
is true iff `v` is a finite numeric value. -/
def validateNumber : JsVal → Bool
  | .num (.int _) => true
  | .num .nonInt => true
  | _ => false

/-! ## The store (`src/config/database.mjs`) -/

abbrev Timestamp := Nat

/-- A row of `users`. -/
structure UserRow where
  id : Int
  username : String
  password : String
  created_at : Option Timestamp
  deriving DecidableEq, Repr

/-- A row of `posts`. -/
structure PostRow where
  id : Int
  title : String
  content : Option String
  created_at : Option Timestamp
  likes : Int
  author_id : Option Int
  deriving DecidableEq, Repr

/-- A row of `comments`. -/
structure CommentRow where
  id : Int
  content : String
  created_at : Option Timestamp
  likes : Int
  author_id : Option Int
  post_id : Option Int
  deriving DecidableEq, Repr

/-- The state of the store: the three tables and the next value of each `SERIAL`
sequence. -/
structure Db where
  users : List UserRow
  posts : List PostRow
  comments : List CommentRow
  users_id_seq : Int
  posts_id_seq : Int
  comments_id_seq : Int
  deriving DecidableEq, Repr

/-- Largest value of an `INT` column. -/
def INT_MAX : Int := 2147483647

/-- Smallest value of an `INT` column. -/
def INT_MIN : Int := -2147483648

/-- The constraints the schema enforces on every state of the store: primary keys are
unique, foreign keys point at existing rows, `likes` fits the `INT` type. -/
structure Db.WF (db : Db) : Prop where
  users_pk : (db.users.map (·.id)).Nodup
  posts_pk : (db.posts.map (·.id)).Nodup
  comments_pk : (db.comments.map (·.id)).Nodup
  posts_author_fk : ∀ p ∈ db.posts, ∀ a, p.author_id = some a → a ∈ db.users.map (·.id)
  comments_author_fk :
    ∀ c ∈ db.comments, ∀ a, c.author_id = some a → a ∈ db.users.map (·.id)
  comments_post_fk :
    ∀ c ∈ db.comments, ∀ i, c.post_id = some i → i ∈ db.posts.map (·.id)
  posts_likes_range : ∀ p ∈ db.posts, INT_MIN ≤ p.likes ∧ p.likes ≤ INT_MAX
  comments_likes_range : ∀ c ∈ db.comments, INT_MIN ≤ c.likes ∧ c.likes ≤ INT_MAX

/-- An error raised by the store. -/
inductive DbError where
  | unique_violation
  | foreign_key_violation
  | not_null_violation
  | numeric_value_out_of_range
  | invalid_text_representation
  | character_not_in_repertoire
  deriving DecidableEq, Repr

/-- A JavaScript exception. -/
inductive JsError where
  | db (e : DbError)
  | error (message : String)
  | typeError
  deriving DecidableEq, Repr

/-- The result of an asynchronous call: a value or a rejection, and the store after it. -/
abbrev Result (α : Type) := Except JsError α × Db

/-- SQL `col = $n` on a nullable integer column: true only when both sides are not
null and equal. -/
def sqlEq (col param : Option Int) : Bool :=
  match col, param with
  | some a, some b => a == b
  | _, _ => false

/-- SQL `col = $n` on a nullable text column. -/
def sqlEqText (col param : Option String) : Bool :=
  match col, param with
  | some a, some b => a == b
  | _, _ => false

/-! ## The statements sent to the store

Each definition is one `pool.query` call: the rows it returns (for a `SELECT` or a
`RETURNING` clause, `rowCount` is the number of rows returned) or the number of rows
it affected, and the store afterwards.  A statement that raises leaves the tables as
they were; a sequence value that was drawn stays drawn. -/

namespace Sql

/-- The columns `id, username, created_at` of a user: no password. -/
structure UserIdentity where
  id : Int
  username : String
  created_at : Option Timestamp
  deriving DecidableEq, Repr

/-- The projection `id, username, created_at` of a row of `users`. -/
def identityOf (u : UserRow) : UserIdentity :=
  { id := u.id, username := u.username, created_at := u.created_at }

/-- A post joined with its author: the columns selected by the list queries. -/
structure PostView where
  id : Int
  title : String
  content : Option String
  created_at : Option Timestamp
  likes : Int
  username : Option String
  author_id : Option Int
  deriving DecidableEq, Repr

/-- A comment joined with its author: the columns selected by `getBlogPostById`. -/
structure CommentView where
  id : Int
  content : String
  created_at : Option Timestamp
  likes : Int
  username : Option String
  author_id : Option Int
  deriving DecidableEq, Repr

/-- `INSERT INTO users (username, password) VALUES ($1, $2)
RETURNING id, username, created_at`. -/
def insertUser (db : Db) (now : Timestamp) (username password : String) :
    Except DbError (List UserIdentity) × Db :=
  let id := db.users_id_seq
  let db1 := { db with users_id_seq := id + 1 }
  if db.users.any (fun u => u.id == id) then (.error .unique_violation, db1)
  else
    let row : UserRow :=
      { id := id, username := username, password := password, created_at := some now }
    (.ok [identityOf row], { db1 with users := db.users ++ [row] })

/-- `SELECT id, username, created_at FROM users WHERE username = $1 AND password = $2`. -/
def selectUserByCredentials (db : Db) (username password : Option String) :
    List UserIdentity :=
  (db.users.filter (fun u =>
    sqlEqText (some u.username) username && sqlEqText (some u.password) password)).map
    identityOf

/-- A foreign key is violated by a value that is not null and is the key of no row. -/
def fkViolated (key : Option Int) (keys : List Int) : Bool :=
  match key with
  | some k => !keys.contains k
  | none => false

/-- `INSERT INTO posts (title, content, author_id) VALUES ($1, $2, $3) RETURNING *`. -/
def insertPost (db : Db) (now : Timestamp) (title : String) (content : Option String)
    (authorId : Option Int) : Except DbError (List PostRow) × Db :=
  let id := db.posts_id_seq
  let db1 := { db with posts_id_seq := id + 1 }
  if db.posts.any (fun p => p.id == id) then (.error .unique_violation, db1)
  else if fkViolated authorId (db.users.map (·.id)) then (.error .foreign_key_violation, db1)
  else
    let row : PostRow :=
      { id := id, title := title, content := content, created_at := some now, likes := 0,
        author_id := authorId }
    (.ok [row], { db1 with posts := db.posts ++ [row] })

/-- The rows of `posts LEFT JOIN users ON posts.author_id = users.id` that come from
one post. -/
def joinPostAuthor (users : List UserRow) (p : PostRow) : List PostView :=
  let view (username : Option String) (authorId : Option Int) : PostView :=
    { id := p.id, title := p.title, content := p.content, created_at := p.created_at,
      likes := p.likes, username := username, author_id := authorId }
  match users.filter (fun u => sqlEq p.author_id (some u.id)) with
  | [] => [view none none]
  | us => us.map (fun u => view (some u.username) (some u.id))

/-- `SELECT posts.id, posts.title, posts.content, posts.created_at, posts.likes,
users.username, users.id AS author_id
FROM posts LEFT JOIN users ON posts.author_id = users.id`. -/
def selectAllPosts (db : Db) : List PostView :=
  db.posts.flatMap (joinPostAuthor db.users)

/-- The same join `WHERE author_id = $1`. -/
def selectPostsByAuthor (db : Db) (authorId : Option Int) : List PostView :=
  (db.posts.filter (fun p => sqlEq p.author_id authorId)).flatMap (joinPostAuthor db.users)

/-- `SELECT * FROM posts WHERE id = $1`. -/
def selectPostById (db : Db) (postId : Int) : List PostRow :=
  db.posts.filter (fun p => p.id == postId)

/-- The rows of `comments LEFT JOIN users ON comments.author_id = users.id` that come
from one comment. -/
def joinCommentAuthor (users : List UserRow) (c : CommentRow) : List CommentView :=
  let view (username : Option String) (authorId : Option Int) : CommentView :=
    { id := c.id, content := c.content, created_at := c.created_at, likes := c.likes,
      username := username, author_id := authorId }
  match users.filter (fun u => sqlEq c.author_id (some u.id)) with
  | [] => [view none none]
  | us => us.map (fun u => view (some u.username) (some u.id))

/-- `SELECT comments.id, comments.content, comments.created_at, comments.likes,
users.username, users.id AS author_id
FROM comments LEFT JOIN users ON comments.author_id = users.id WHERE post_id = $1`. -/
def selectCommentsByPost (db : Db) (postId : Int) : List CommentView :=
  (db.comments.filter (fun c => sqlEq c.post_id (some postId))).flatMap
    (joinCommentAuthor db.users)

/-- Whether `f` accepts the text or one of its suffixes: the `%` wildcard skips any run
of characters. -/
def anySuffix (f : List Char → Bool) : List Char → Bool
  | [] => f []
  | c :: t => f (c :: t) || anySuffix f t

/-- SQL `text LIKE pattern` with the default escape character: `%` matches any run of
characters, `_` any one character, a backslash makes the next pattern character
literal.  (A pattern that ends in a lone backslash is an error in the store; the
pattern built by `getBlogPostsByTitle` ends in `%` and never does.) -/
def likeMatch : List Char → List Char → Bool
  | [], t => t.isEmpty
  | c :: p, t =>
    if c = '%' then anySuffix (likeMatch p) t
    else if c = '_' then
      match t with
      | [] => false
      | _ :: t' => likeMatch p t'
    else if c = Char.ofNat 92 then
      match p, t with
      | e :: p', d :: t' => e == d && likeMatch p' t'
      | _, _ => false
    else
      match t with
      | [] => false
      | d :: t' => c == d && likeMatch p t'

/-- SQL `LOWER`, on the letters A to Z. -/
def lower (s : String) : List Char :=
  s.toList.map Char.toLower

/-- `SELECT * FROM posts WHERE LOWER(title) LIKE $1`. -/
def selectPostsByTitleLike (db : Db) (pattern : List Char) : List PostRow :=
  db.posts.filter (fun p => likeMatch pattern (lower p.title))

/-- `DELETE FROM posts WHERE id = $1 AND author_id = $2`.  A matching post that a
comment still references makes the statement fail (`comments.post_id REFERENCES
posts(id)`). -/
def deletePost (db : Db) (postId : Int) (authorId : Option Int) : Except DbError Nat × Db :=
  let hit (p : PostRow) : Bool := p.id == postId && sqlEq p.author_id authorId
  let matched := db.posts.filter hit
  if matched.any (fun p => db.comments.any (fun c => sqlEq c.post_id (some p.id))) then
    (.error .foreign_key_violation, db)
  else
    (.ok matched.length, { db with posts := db.posts.filter (fun p => !hit p) })

/-- The store refuses a text parameter that holds the character U+0000. -/
def textRefused (s : String) : Bool :=
  s.toList.contains (Char.ofNat 0)

/-- The same for a text parameter that may be null. -/
def nullableTextRefused (s : Option String) : Bool :=
  match s with
  | some t => textRefused t
  | none => false

/-- The store refuses the parameter of an `INT` column that is outside the 32-bit range
of the type. -/
def intRefused (i : Int) : Bool :=
  decide (i < INT_MIN ∨ INT_MAX < i)

/-- The same for an integer parameter that may be null. -/
def nullableIntRefused (i : Option Int) : Bool :=
  match i with
  | some k => intRefused k
  | none => false

/-- `UPDATE posts SET title = $1, content = $2 WHERE id = $3 AND author_id = $4`.  The
parameters are read in their order; one that the store refuses makes the statement
fail. -/
def updatePost (db : Db) (title : String) (content : Option String) (postId : Int)
    (authorId : Option Int) : Except DbError Nat × Db :=
  let hit (p : PostRow) : Bool := p.id == postId && sqlEq p.author_id authorId
  if textRefused title then (.error .character_not_in_repertoire, db)
  else if nullableTextRefused content then (.error .character_not_in_repertoire, db)
  else if intRefused postId then (.error .numeric_value_out_of_range, db)
  else if nullableIntRefused authorId then (.error .numeric_value_out_of_range, db)
  else
    (.ok (db.posts.filter hit).length,
      { db with posts := db.posts.map (fun p =>
          if hit p then { p with title := title, content := content } else p) })

/-- `UPDATE posts SET title = $1 WHERE id = $2 AND author_id = $3`.  The parameters are
read in their order; one that the store refuses makes the statement fail. -/
def updatePostTitle (db : Db) (title : String) (postId : Int) (authorId : Option Int) :
    Except DbError Nat × Db :=
  let hit (p : PostRow) : Bool := p.id == postId && sqlEq p.author_id authorId
  if textRefused title then (.error .character_not_in_repertoire, db)
  else if intRefused postId then (.error .numeric_value_out_of_range, db)
  else if nullableIntRefused authorId then (.error .numeric_value_out_of_range, db)
  else
    (.ok (db.posts.filter hit).length,
      { db with posts := db.posts.map (fun p =>
          if hit p then { p with title := title } else p) })

/-- What `SET likes = likes + delta WHERE id = $1` makes of a row. -/
def bump (delta postId : Int) (p : PostRow) : PostRow :=
  if p.id == postId then { p with likes := p.likes + delta } else p

/-- `UPDATE posts SET likes = likes + delta WHERE id = $1`, for `delta` 1 or -1.  A new
value outside the `INT` range makes the statement fail. -/
def addLikes (db : Db) (delta : Int) (postId : Int) : Except DbError Nat × Db :=
  let matched := db.posts.filter (fun p => p.id == postId)
  if matched.any (fun p => decide (p.likes + delta < INT_MIN ∨ INT_MAX < p.likes + delta)) then
    (.error .numeric_value_out_of_range, db)
  else
    (.ok matched.length, { db with posts := db.posts.map (bump delta postId) })

/-- Modelled from the spec: `src/repositories/comments.mjs` is missing; the insert behind
`create(content, postId, authorId) -> Comment`, a single-row insert into `comments`
under the foreign keys of the schema. -/
def insertComment (db : Db) (now : Timestamp) (content : String) (postId : Option Int)
    (authorId : Option Int) : Except DbError (List CommentRow) × Db :=
  let id := db.comments_id_seq
  let db1 := { db with comments_id_seq := id + 1 }
  if db.comments.any (fun c => c.id == id) then (.error .unique_violation, db1)
  else if fkViolated authorId (db.users.map (·.id)) then (.error .foreign_key_violation, db1)
  else if fkViolated postId (db.posts.map (·.id)) then (.error .foreign_key_violation, db1)
  else
    let row : CommentRow :=
      { id := id, content := content, created_at := some now, likes := 0,
        author_id := authorId, post_id := postId }
    (.ok [row], { db1 with comments := db.comments ++ [row] })

end Sql

open Sql (UserIdentity PostView CommentView)

/-! ## `src/repositories/users.mjs` -/

/-- `createUser(username, password)`: the inserted row without its password; throws
unless exactly one row was inserted. -/
def createUser (db : Db) (now : Timestamp) (username password : String) :
    Result UserIdentity :=
  match Sql.insertUser db now username password with
  | (.error e, db') => (.error (.db e), db')
  | (.ok [row], db') => (.ok row, db')
  | (.ok _, db') => (.error (.error "Failed to insert user"), db')

/-- `loginUser(username, password)`: the identity of the one matching user, or null. -/
def loginUser (db : Db) (username password : Option String) : Result (Option UserIdentity) :=
  match Sql.selectUserByCredentials db username password with
  | [row] => (.ok (some row), db)
  | _ => (.ok none, db)

/-! ## `src/repositories/posts.mjs` -/

/-- A post with its comments attached, as `getBlogPostById` returns it. -/
structure PostWithComments where
  id : Int
  title : String
  content : Option String
  created_at : Option Timestamp
  likes : Int
  author_id : Option Int
  comments : List CommentView
  deriving DecidableEq, Repr

/-- `post.comments = comments.rows`. -/
def attachComments (p : PostRow) (comments : List CommentView) : PostWithComments :=
  { id := p.id, title := p.title, content := p.content, created_at := p.created_at,
    likes := p.likes, author_id := p.author_id, comments := comments }

/-- `createBlogPost(title, content, authorId)`: the inserted row; throws unless exactly
one row was inserted. -/
def createBlogPost (db : Db) (now : Timestamp) (title : String) (content : Option String)
    (authorId : Option Int) : Result PostRow :=
  match Sql.insertPost db now title content authorId with
  | (.error e, db') => (.error (.db e), db')
  | (.ok [row], db') => (.ok row, db')
  | (.ok _, db') => (.error (.error "Failed to insert blogpost"), db')

/-- `getAllBlogPosts()`. -/
def getAllBlogPosts (db : Db) : Result (List PostView) :=
  (.ok (Sql.selectAllPosts db), db)

/-- `getBlogPostByAuthor(authorId)`. -/
def getBlogPostByAuthor (db : Db) (authorId : Option Int) : Result (List PostView) :=
  (.ok (Sql.selectPostsByAuthor db authorId), db)

/-- `getBlogPostById(postId)`: null unless exactly one row has that id; otherwise the
row with the comments of that post attached. -/
def getBlogPostById (db : Db) (postId : Int) : Result (Option PostWithComments) :=
  match Sql.selectPostById db postId with
  | [post] => (.ok (some (attachComments post (Sql.selectCommentsByPost db postId))), db)
  | _ => (.ok none, db)

/-- `getBlogPostsByTitle(title)`: the pattern is `"%" + title.toLowerCase() + "%"`. -/
def getBlogPostsByTitle (db : Db) (title : String) : Result (List PostRow) :=
  (.ok (Sql.selectPostsByTitleLike db ('%' :: (jsToLowerCase title ++ ['%']))), db)

/-- `deleteBlogPostById(postId, authorId)`: `rowCount > 0`. -/
def deleteBlogPostById (db : Db) (postId : Int) (authorId : Option Int) : Result Bool :=
  match Sql.deletePost db postId authorId with
  | (.error e, db') => (.error (.db e), db')
  | (.ok rowCount, db') => (.ok (decide (rowCount > 0)), db')

/-- `updateBlogPostById(postId, authorId, title, content)`: `rowCount > 0`; an error of
the store is not caught. -/
def updateBlogPostById (db : Db) (postId : Int) (authorId : Option Int) (title : String)
    (content : Option String) : Result Bool :=
  match Sql.updatePost db title content postId authorId with
  | (.error e, db') => (.error (.db e), db')
  | (.ok rowCount, db') => (.ok (decide (rowCount > 0)), db')

/-- `updateBlogPostTitleById(postId, authorId, title)`: `rowCount > 0`; an error of the
store is not caught. -/
def updateBlogPostTitleById (db : Db) (postId : Int) (authorId : Option Int)
    (title : String) : Result Bool :=
  match Sql.updatePostTitle db title postId authorId with
  | (.error e, db') => (.error (.db e), db')
  | (.ok rowCount, db') => (.ok (decide (rowCount > 0)), db')

/-- `likeBlogPostById(postId)`: `likes = likes + 1`, `rowCount > 0`. -/
def likeBlogPostById (db : Db) (postId : Int) : Result Bool :=
  match Sql.addLikes db 1 postId with
  | (.error e, db') => (.error (.db e), db')
  | (.ok rowCount, db') => (.ok (decide (rowCount > 0)), db')

/-- `dislikeBlogPostById(postId)`: `likes = likes - 1`, `rowCount > 0`. -/
def dislikeBlogPostById (db : Db) (postId : Int) : Result Bool :=
  match Sql.addLikes db (-1) postId with
  | (.error e, db') => (.error (.db e), db')
  | (.ok rowCount, db') => (.ok (decide (rowCount > 0)), db')

/-! ## `src/repositories/comments.mjs` -/

/-- Modelled from the spec: `src/repositories/comments.mjs` is missing;
`create(content, postId, authorId) -> Comment` with the same single-row-insert contract
as posts. -/
def createComment (db : Db) (now : Timestamp) (content : String) (postId : Option Int)
    (authorId : Option Int) : Result CommentRow :=
  match Sql.insertComment db now content postId authorId with
  | (.error e, db') => (.error (.db e), db')
  | (.ok [row], db') => (.ok row, db')
  | (.ok _, db') => (.error (.error "Failed to insert comment"), db')

/-! ## Requests and responses -/

/-- What a handler reads of a request.  `body` is `none` when `req.body` is undefined,
otherwise the properties of the parsed JSON object. -/
structure Request where
  headers_username : Option String
  headers_password : Option String
  params_id : String
  query_title : JsVal
  body : Option (List (String × JsVal))
  deriving DecidableEq, Repr

/-- Reading `req.body.name` of a body that is present: undefined when the property is
missing. -/
def field (body : List (String × JsVal)) (name : String) : JsVal :=
  (body.lookup name).getD .undefined

/-- What a handler passes to `res.json` or `res.send`. -/
inductive ResBody where
  | error (message : String)
  | user (u : UserIdentity)
  | post (p : PostRow)
  | postWithComments (p : PostWithComments)
  | postViews (ps : List PostView)
  | posts (ps : List PostRow)
  | comment (c : CommentRow)
  | empty
  deriving DecidableEq, Repr

/-- A response written by a handler. -/
structure Response where
  status : Nat
  body : ResBody
  deriving DecidableEq, Repr

/-- How a handler ends: it has sent a response, or its promise is rejected with an
exception it did not catch and it has sent nothing. -/
inductive Outcome where
  | sent (r : Response)
  | rejected (e : JsError)
  deriving DecidableEq, Repr

/-- The 401 response of every handler that logs the user in. -/
def unauthorized : Outcome :=
  .sent { status := 401, body := .error "The username or password is incorrect" }

/-- The 400 response to a missing body. -/
def bodyMissing : Outcome :=
  .sent { status := 400, body := .error "A JSON body must be included" }

/-- The 400 response to a post id that is not a number. -/
def postIdInvalid : Outcome :=
  .sent { status := 400, body := .error "Post id must be a number" }

/-- The 404 response: `"A post with id '" + postId + "' does not exist"`. -/
def postNotFound (postId : JsNum) : Outcome :=
  .sent { status := 404,
          body := .error ("A post with id '" ++ postId.toMessage ++ "' does not exist") }

/-- The 500 response of the `catch` blocks. -/
def unexpectedError : Outcome :=
  .sent { status := 500, body := .error "An unexpected error occurred." }

/-- A JavaScript number sent as the parameter of an `INT` column: the store rejects
what is not an integer and what does not fit the 32-bit range of the type. -/
def intParam : JsNum → Except DbError Int
  | .int i =>
    if INT_MIN ≤ i ∧ i ≤ INT_MAX then .ok i else .error .numeric_value_out_of_range
  | _ => .error .invalid_text_representation

/-! ## The routes

A value that passed `validateString` is a string and a value that passed
`validateNumber` is a number; the last branch of the matches below is for the other
values and is never taken. -/

/-! ### `src/routes/users.mjs` -/

/-- `POST /users`. -/
def postUsers (db : Db) (now : Timestamp) (req : Request) : Outcome × Db :=
  match req.body with
  | none => (bodyMissing, db)
  | some body =>
    let username := field body "username"
    let password := field body "password"
    if !validateString username then
      (.sent { status := 400, body := .error "Username must be included and be a string" }, db)
    else if !validateString password then
      (.sent { status := 400, body := .error "Password must be included and be a string" }, db)
    else
      match username, password with
      | .str u, .str pw =>
        if jsLength pw ≤ 6 then
          (.sent { status := 400, body := .error "Password must be at least 7 characters" }, db)
        else
          match createUser db now u pw with
          | (.ok user, db') => (.sent { status := 201, body := .user user }, db')
          | (.error _, db') => (unexpectedError, db')
      | _, _ => (.rejected .typeError, db)

/-! ### `src/routes/comments.mjs` -/

/-- `POST /comments`. -/
def postComments (db : Db) (now : Timestamp) (req : Request) : Outcome × Db :=
  match loginUser db req.headers_username req.headers_password with
  | (.error e, db') => (.rejected e, db')
  | (.ok none, db') => (unauthorized, db')
  | (.ok (some user), db') =>
    match req.body with
    | none => (bodyMissing, db')
    | some body =>
      let content := field body "content"
      let postId := field body "postId"
      if !validateString content then
        (.sent { status := 400, body := .error "Content must be included and be a string" },
          db')
      else if !validateNumber postId then
        (.sent { status := 400, body := .error "PostId must be included and be a number" },
          db')
      else
        match content, postId with
        | .str c, .num n =>
          match intParam n with
          | .error _ => (unexpectedError, db')
          | .ok i =>
            match createComment db' now c (some i) (some user.id) with
            | (.ok comment, db'') => (.sent { status := 201, body := .comment comment }, db'')
            | (.error _, db'') => (unexpectedError, db'')
        | _, _ => (.rejected .typeError, db')

/-! ### `src/routes/posts.mjs` -/

/-- `POST /blogs`. -/
def postBlogs (db : Db) (now : Timestamp) (req : Request) : Outcome × Db :=
  match loginUser db req.headers_username req.headers_password with
  | (.error e, db') => (.rejected e, db')
  | (.ok none, db') => (unauthorized, db')
  | (.ok (some user), db') =>
    match req.body with
    | none => (bodyMissing, db')
    | some body =>
      let title := field body "title"
      let content := field body "content"
      if !validateString title then
        (.sent { status := 400, body := .error "Title must be included and be a string" }, db')
      else if !validateString content then
        (.sent { status := 400, body := .error "Content must be included and be a string" },
          db')
      else
        match title, content with
        | .str t, .str c =>
          match createBlogPost db' now t (some c) (some user.id) with
          | (.ok post, db'') => (.sent { status := 201, body := .post post }, db'')
          | (.error _, db'') => (unexpectedError, db'')
        | _, _ => (.rejected .typeError, db')

/-- `GET /blogs`. -/
def getBlogs (db : Db) : Outcome × Db :=
  match getAllBlogPosts db with
  | (.error e, db') => (.rejected e, db')
  | (.ok posts, db') => (.sent { status := 200, body := .postViews posts }, db')

/-- `GET /blogs/self`. -/
def getBlogsSelf (db : Db) (req : Request) : Outcome × Db :=
  match loginUser db req.headers_username req.headers_password with
  | (.error e, db') => (.rejected e, db')
  | (.ok none, db') => (unauthorized, db')
  | (.ok (some user), db') =>
    match getBlogPostByAuthor db' (some user.id) with
    | (.error e, db'') => (.rejected e, db'')
    | (.ok posts, db'') => (.sent { status := 200, body := .postViews posts }, db'')

/-- `GET /blogs/search?title=`. -/
def getBlogsSearch (db : Db) (req : Request) : Outcome × Db :=
  let titleSearch := req.query_title
  if !validateString titleSearch then
    (.sent { status := 400, body := .error "Title must be a string" }, db)
  else
    match titleSearch with
    | .str t =>
      match getBlogPostsByTitle db t with
      | (.error e, db') => (.rejected e, db')
      | (.ok posts, db') => (.sent { status := 200, body := .posts posts }, db')
    | _ => (.rejected .typeError, db)

/-- `GET /blogs/:id`. -/
def getBlogsId (db : Db) (req : Request) : Outcome × Db :=
  let postId := parseInt req.params_id
  if !validateNumber (.num postId) then (postIdInvalid, db)
  else
    match intParam postId with
    | .error e => (.rejected (.db e), db)
    | .ok i =>
      match getBlogPostById db i with
      | (.error e, db') => (.rejected e, db')
      | (.ok none, db') => (postNotFound postId, db')
      | (.ok (some post), db') =>
        (.sent { status := 200, body := .postWithComments post }, db')

/-- `DELETE /blogs/:id`. -/
def deleteBlogsId (db : Db) (req : Request) : Outcome × Db :=
  match loginUser db req.headers_username req.headers_password with
  | (.error e, db') => (.rejected e, db')
  | (.ok none, db') => (unauthorized, db')
  | (.ok (some user), db') =>
    let postId := parseInt req.params_id
    if !validateNumber (.num postId) then (postIdInvalid, db')
    else
      match intParam postId with
      | .error e => (.rejected (.db e), db')
      | .ok i =>
        match deleteBlogPostById db' i (some user.id) with
        | (.error e, db'') => (.rejected e, db'')
        | (.ok false, db'') => (postNotFound postId, db'')
        | (.ok true, db'') => (.sent { status := 204, body := .empty }, db'')

/-- `PUT /blogs/:id`.  The body is read without a check that it is there:
`req.body.title` throws a `TypeError` when `req.body` is undefined. -/
def putBlogsId (db : Db) (req : Request) : Outcome × Db :=
  match loginUser db req.headers_username req.headers_password with
  | (.error e, db') => (.rejected e, db')
  | (.ok none, db') => (unauthorized, db')
  | (.ok (some user), db') =>
    let postId := parseInt req.params_id
    if !validateNumber (.num postId) then (postIdInvalid, db')
    else
      match req.body with
      | none => (.rejected .typeError, db')
      | some body =>
        let title := field body "title"
        let content := field body "content"
        if !validateString title then
          (.sent { status := 400, body := .error "Title must be included and be a string" },
            db')
        else if !validateString content then
          (.sent { status := 400, body := .error "Content must be included and be a string" },
            db')
        else
          match title, content, intParam postId with
          | .str t, .str c, .ok i =>
            match updateBlogPostById db' i (some user.id) t (some c) with
            | (.error e, db'') => (.rejected e, db'')
            | (.ok false, db'') => (postNotFound postId, db'')
            | (.ok true, db'') => (.sent { status := 204, body := .empty }, db'')
          | _, _, .error e => (.rejected (.db e), db')
          | _, _, _ => (.rejected .typeError, db')

/-- `PATCH /blogs/:id/title`.  The body is read without a check that it is there. -/
def patchBlogsIdTitle (db : Db) (req : Request) : Outcome × Db :=
  match loginUser db req.headers_username req.headers_password with
  | (.error e, db') => (.rejected e, db')
  | (.ok none, db') => (unauthorized, db')
  | (.ok (some user), db') =>
    let postId := parseInt req.params_id
    if !validateNumber (.num postId) then (postIdInvalid, db')
    else
      match req.body with
      | none => (.rejected .typeError, db')
      | some body =>
        let title := field body "title"
        if !validateString title then
          (.sent { status := 400, body := .error "Title must be included and be a string" },
            db')
        else
          match title, intParam postId with
          | .str t, .ok i =>
            match updateBlogPostTitleById db' i (some user.id) t with
            | (.error e, db'') => (.rejected e, db'')
            | (.ok false, db'') => (postNotFound postId, db'')
            | (.ok true, db'') => (.sent { status := 204, body := .empty }, db'')
          | _, .error e => (.rejected (.db e), db')
          | _, _ => (.rejected .typeError, db')

/-- `PATCH /blogs/:id/like`. -/
def patchBlogsIdLike (db : Db) (req : Request) : Outcome × Db :=
  let postId := parseInt req.params_id
  if !validateNumber (.num postId) then (postIdInvalid, db)
  else
    match intParam postId with
    | .error e => (.rejected (.db e), db)
    | .ok i =>
      match likeBlogPostById db i with
      | (.error e, db') => (.rejected e, db')
      | (.ok false, db') => (postNotFound postId, db')
      | (.ok true, db') => (.sent { status := 204, body := .empty }, db')

/-- `PATCH /blogs/:id/dislike`. -/
def patchBlogsIdDislike (db : Db) (req : Request) : Outcome × Db :=
  let postId := parseInt req.params_id
  if !validateNumber (.num postId) then (postIdInvalid, db)
  else
    match intParam postId with
    | .error e => (.rejected (.db e), db)
    | .ok i =>
      match dislikeBlogPostById db i with
      | (.error e, db') => (.rejected e, db')
      | (.ok false, db') => (postNotFound postId, db')
      | (.ok true, db') => (.sent { status := 204, body := .empty }, db')

/-- The endpoints of the service. -/
inductive Endpoint where
  | postBlogs
  | getBlogs
  | getBlogsSelf
  | getBlogsSearch
  | getBlogsId
  | deleteBlogsId
  | putBlogsId
  | patchBlogsIdTitle
  | patchBlogsIdLike
  | patchBlogsIdDislike
  | postComments
  | postUsers
  deriving DecidableEq, Repr

/-- The handler registered for an endpoint. -/
def handle (e : Endpoint) (db : Db) (now : Timestamp) (req : Request) : Outcome × Db :=
  match e with
  | .postBlogs => postBlogs db now req
  | .getBlogs => getBlogs db
  | .getBlogsSelf => getBlogsSelf db req
  | .getBlogsSearch => getBlogsSearch db req
  | .getBlogsId => getBlogsId db req
  | .deleteBlogsId => deleteBlogsId db req
  | .putBlogsId => putBlogsId db req
  | .patchBlogsIdTitle => patchBlogsIdTitle db req
  | .patchBlogsIdLike => patchBlogsIdLike db req
  | .patchBlogsIdDislike => patchBlogsIdDislike db req
  | .postComments => postComments db now req
  | .postUsers => postUsers db now req

/-! ## Requests in flight

A handler runs up to its store call, is suspended while the statement runs and resumes
with the result.  The store runs the statements it receives one at a time, so an
interleaving of two requests is an order of their turns. -/

/-- A request in flight whose store calls return a row count: it has ended with an
outcome, or it is about to send a statement and will resume with the result. -/
inductive Job where
  | done (o : Outcome)
  | call (stmt : Db → Except DbError Nat × Db) (resume : Except DbError Nat → Job)

/-- The job run to its end with the store to itself. -/
def Job.run : Job → Db → Outcome × Db
  | .done o, db => (o, db)
  | .call stmt resume, db => (resume (stmt db).1).run (stmt db).2

/-- One turn of a job: its statement runs and the job resumes; a job that has ended
stays as it is. -/
def Job.turn : Job → Db → Job × Db
  | .done o, db => (.done o, db)
  | .call stmt resume, db => (resume (stmt db).1, (stmt db).2)

/-- The outcome of a job that has ended. -/
def Job.outcome : Job → Option Outcome
  | .done o => some o
  | .call _ _ => none

/-- What `PATCH /blogs/:id/like` and `/dislike` do with the result of their statement. -/
def afterLikes (postId : JsNum) (result : Except DbError Nat) : Job :=
  match result with
  | .error e => .done (.rejected (.db e))
  | .ok rowCount =>
    if rowCount > 0 then .done (.sent { status := 204, body := .empty })
    else .done (postNotFound postId)

/-- `PATCH /blogs/:id/like` as a job: one store call, `likes = likes + 1`. -/
def patchBlogsIdLikeJob (req : Request) : Job :=
  let postId := parseInt req.params_id
  if !validateNumber (.num postId) then .done postIdInvalid
  else
    match intParam postId with
    | .error e => .done (.rejected (.db e))
    | .ok i => .call (fun db => Sql.addLikes db 1 i) (afterLikes postId)

/-- `PATCH /blogs/:id/dislike` as a job: one store call, `likes = likes - 1`. -/
def patchBlogsIdDislikeJob (req : Request) : Job :=
  let postId := parseInt req.params_id
  if !validateNumber (.num postId) then .done postIdInvalid
  else
    match intParam postId with
    | .error e => .done (.rejected (.db e))
    | .ok i => .call (fun db => Sql.addLikes db (-1) i) (afterLikes postId)

/-- Two requests in flight on one store. -/
structure Sys where
  db : Db
  first : Job
  second : Job

/-- The next turn goes to the second request (`true`) or to the first (`false`). -/
def Sys.turn (s : Sys) (who : Bool) : Sys :=
  if who then
    { db := (s.second.turn s.db).2, first := s.first, second := (s.second.turn s.db).1 }
  else
    { db := (s.first.turn s.db).2, first := (s.first.turn s.db).1, second := s.second }

/-- The system after the turns of a schedule. -/
def runSchedule (s : Sys) (schedule : List Bool) : Sys :=
  schedule.foldl Sys.turn s

/-! ## Example states -/

/-- A store with two users, two posts and a comment on the first post. -/
def exampleDb : Db :=
  { users := [
      { id := 1, username := "ann", password := "longenough", created_at := some 10 },
      { id := 2, username := "bob", password := "password1", created_at := some 11 }],
    posts := [
      { id := 1, title := "JavaScript Basics", content := some "x", created_at := some 20,
        likes := 0, author_id := some 1 },
      { id := 2, title := "abc", content := none, created_at := some 21, likes := 5,
        author_id := some 2 }],
    comments := [
      { id := 1, content := "nice", created_at := some 30, likes := 0, author_id := some 2,
        post_id := some 1 }],
    users_id_seq := 3,
    posts_id_seq := 3,
    comments_id_seq := 2 }

/-- The first post of `exampleDb`. -/
def examplePost1 : PostRow :=
  { id := 1, title := "JavaScript Basics", content := some "x", created_at := some 20,
    likes := 0, author_id := some 1 }

/-- The second post of `exampleDb`. -/
def examplePost2 : PostRow :=
  { id := 2, title := "abc", content := none, created_at := some 21, likes := 5,
    author_id := some 2 }

/-- A request for post 1 with the name of a user and a wrong password. -/
def wrongPasswordRequest : Request :=
  { headers_username := some "ann", headers_password := some "guess", params_id := "1",
    query_title := .undefined,
    body := some [("title", .str "Hi"), ("content", .str "x"), ("postId", .num (.int 1))] }

/-- The body `{username: "ann", password: "short"}`. -/
def signupShort : Request :=
  { headers_username := none, headers_password := none, params_id := "",
    query_title := .undefined,
    body := some [("username", .str "ann"), ("password", .str "short")] }

/-- The body `{username: "cat", password: "longenough"}`. -/
def signupLong : Request :=
  { headers_username := none, headers_password := none, params_id := "",
    query_title := .undefined,
    body := some [("username", .str "cat"), ("password", .str "longenough")] }

/-- A store whose only post has reached the largest value of `likes`. -/
def maxLikesDb : Db :=
  { users := [{ id := 1, username := "ann", password := "longenough", created_at := some 10 }],
    posts := [
      { id := 1, title := "Popular", content := some "x", created_at := some 20,
        likes := 2147483647, author_id := some 1 }],
    comments := [],
    users_id_seq := 2,
    posts_id_seq := 2,
    comments_id_seq := 1 }

/-- A request with the credentials of `ann` for post 1, without a body. -/
def annNoBody : Request :=
  { headers_username := some "ann", headers_password := some "longenough", params_id := "1",
    query_title := .undefined, body := none }

/-- A request with the credentials of `ann` and the body `{title: "Hi", content: "x"}`. -/
def annCreate : Request :=
  { headers_username := some "ann", headers_password := some "longenough", params_id := "1",
    query_title := .undefined, body := some [("title", .str "Hi"), ("content", .str "x")] }

/-- The store `exampleDb` with the sequence of `posts` behind the ids in use. -/
def staleSeqDb : Db :=
  { exampleDb with posts_id_seq := 2 }

/-- A store whose only post is one like below the largest value of `likes`. -/
def nearMaxLikesDb : Db :=
  { maxLikesDb with posts := [
      { id := 1, title := "Popular", content := some "x", created_at := some 20,
        likes := 2147483646, author_id := some 1 }] }

/-- A request for post 999999, which does not exist. -/
def request999999 : Request :=
  { headers_username := none, headers_password := none, params_id := "999999",
    query_title := .undefined, body := none }

/-- A request for post 2147483648, one above the largest `INT`. -/
def requestBeyondInt : Request :=
  { headers_username := none, headers_password := none, params_id := "2147483648",
    query_title := .undefined, body := none }

/-- A request for post 2. -/
def requestPost2 : Request :=
  { headers_username := none, headers_password := none, params_id := "2",
    query_title := .undefined, body := none }

/-- A request of `ann` for post 2147483648, one above the largest `INT`, with the body
`{title: "x", content: "y"}`. -/
def annTitleBeyondInt : Request :=
  { headers_username := some "ann", headers_password := some "longenough",
    params_id := "2147483648", query_title := .undefined,
    body := some [("title", .str "x"), ("content", .str "y")] }

/-- A title that is the one character U+0000. -/
def nulTitle : String :=
  String.singleton (Char.ofNat 0)

/-- A request of `ann` for her post 1 with the title `nulTitle`. -/
def annNulTitle : Request :=
  { headers_username := some "ann", headers_password := some "longenough",
    params_id := "1", query_title := .undefined,
    body := some [("title", .str nulTitle), ("content", .str "y")] }

/-! ## Lemmas on the store -/

theorem exampleDb_wf : exampleDb.WF := by
  constructor <;> simp [exampleDb, INT_MIN, INT_MAX]

/-- In a list whose keys are distinct, selecting by the key of a member gives that
member alone. -/
theorem filter_key_eq_singleton {α : Type} (f : α → Int) (l : List α)
    (h : (l.map f).Nodup) (p : α) (hp : p ∈ l) :
    l.filter (fun q => f q == f p) = [p] := by
  induction l with
  | nil => simp at hp
  | cons x xs ih =>
    simp only [List.map_cons, List.nodup_cons, List.mem_map, not_exists, not_and] at h
    rcases List.mem_cons.mp hp with rfl | hp'
    · have : xs.filter (fun q => f q == f p) = [] := by
        rw [List.filter_eq_nil_iff]
        intro q hq
        have := h.1 q hq
        simpa using this
      simp [List.filter_cons, this]
    · have hne : f x ≠ f p := fun e => h.1 p hp' e.symm
      simp [List.filter_cons, hne, ih h.2 hp']

/-- In a list whose keys are distinct, two members with the same key are the same. -/
theorem eq_of_key_eq {α : Type} (f : α → Int) (l : List α) (h : (l.map f).Nodup)
    (p q : α) (hp : p ∈ l) (hq : q ∈ l) (e : f q = f p) : q = p := by
  have hs := filter_key_eq_singleton f l h p hp
  have : q ∈ l.filter (fun q => f q == f p) := by
    simp [List.mem_filter, hq, e]
  rw [hs] at this
  simpa using this

/-- A member of `posts` in a well-formed store is the only row with its id, so the
row filter `id = $1 AND author_id = $2` selects it alone or nothing. -/
theorem filter_hit_eq (db : Db) (hwf : db.WF) (p : PostRow) (hp : p ∈ db.posts)
    (authorId : Option Int) :
    db.posts.filter (fun q => q.id == p.id && sqlEq q.author_id authorId)
      = if sqlEq p.author_id authorId then [p] else [] := by
  have h1 := filter_key_eq_singleton (fun q : PostRow => q.id) db.posts hwf.posts_pk p hp
  have h2 : db.posts.filter (fun q => q.id == p.id && sqlEq q.author_id authorId)
      = (db.posts.filter (fun q => q.id == p.id)).filter
          (fun q => sqlEq q.author_id authorId) := by
    rw [List.filter_filter]
    apply List.filter_congr
    intro x _
    exact Bool.and_comm _ _
  rw [h2, h1]
  by_cases h : sqlEq p.author_id authorId <;> simp [h]

/-- On the posts of a well-formed store, not being hit by `id = p.id AND author_id = a`
is being another row than `p`, when `a` is the author of `p`. -/
theorem filter_not_hit_eq (db : Db) (hwf : db.WF) (p : PostRow) (hp : p ∈ db.posts)
    (authorId : Option Int) (hown : sqlEq p.author_id authorId = true) :
    db.posts.filter (fun q => !(q.id == p.id && sqlEq q.author_id authorId))
      = db.posts.filter (fun q => decide (q ≠ p)) := by
  apply List.filter_congr
  intro q hq
  by_cases e : q = p
  · subst e
    simp [hown]
  · have : q.id ≠ p.id := fun h =>
      e (eq_of_key_eq (fun q : PostRow => q.id) db.posts hwf.posts_pk p q hp hq h)
    simp [e, this]

theorem sqlEq_eq_true {a b : Option Int} (h : sqlEq a b = true) : b = a ∧ ∃ i, a = some i := by
  cases a <;> cases b <;> simp [sqlEq] at h ⊢
  exact h.symm

theorem sqlEq_of_ne {a b : Option Int} (h : b ≠ a) : sqlEq a b = false := by
  cases a <;> cases b <;> simp [sqlEq] at h ⊢
  exact fun e => h e.symm

theorem filter_not_hit_self (db : Db) (hwf : db.WF) (p : PostRow) (hp : p ∈ db.posts)
    (authorId : Option Int) (hown : sqlEq p.author_id authorId = false) :
    db.posts.filter (fun q => !(q.id == p.id && sqlEq q.author_id authorId)) = db.posts := by
  rw [List.filter_eq_self]
  intro q hq
  by_cases e : q.id = p.id
  · have := eq_of_key_eq (fun q : PostRow => q.id) db.posts hwf.posts_pk p q hp hq e
    subst this
    simp [hown]
  · simp [e]

/-- What `DELETE FROM posts WHERE id = $1 AND author_id = $2` does for the id of a row
`p` of a store that satisfies the schema. -/
theorem deletePost_member (db : Db) (hwf : db.WF) (p : PostRow) (hp : p ∈ db.posts)
    (authorId : Option Int) :
    Sql.deletePost db p.id authorId =
      if sqlEq p.author_id authorId = true then
        if (db.comments.any fun c => sqlEq c.post_id (some p.id)) = true then
          (.error .foreign_key_violation, db)
        else (.ok 1, { db with posts := db.posts.filter (fun q => decide (q ≠ p)) })
      else (.ok 0, db) := by
  have hfil := filter_hit_eq db hwf p hp authorId
  unfold Sql.deletePost
  dsimp only
  rw [hfil]
  by_cases hs : sqlEq p.author_id authorId = true
  · rw [filter_not_hit_eq db hwf p hp authorId hs]
    simp only [hs, if_true, List.any_cons, List.any_nil, Bool.or_false, List.length_singleton]
  · have hs' : sqlEq p.author_id authorId = false := by simpa using hs
    rw [filter_not_hit_self db hwf p hp authorId hs']
    simp only [hs', Bool.false_eq_true, if_false, List.any_nil, List.length_nil]

/-- C1: in a store that satisfies the schema, for a post `p` and an `authorId` other than
the `author_id` of `p` (which may be null), `deleteBlogPostById(p.id, authorId)`
returns false and leaves the store as it is, and `getBlogPostById(p.id)` returns `p`;
whenever the call returns true, `authorId` is the `author_id` of `p` and the store
differs by the removal of the row `p` alone; and it does return true for the author
when no comment references `p`. -/
theorem deleteBlogPostById_ownership (db : Db) (hwf : db.WF) (p : PostRow)
    (hp : p ∈ db.posts) (authorId : Option Int) :
    (authorId ≠ p.author_id →
      deleteBlogPostById db p.id authorId = (.ok false, db) ∧
      getBlogPostById db p.id
        = (.ok (some (attachComments p (Sql.selectCommentsByPost db p.id))), db)) ∧
    (∀ db', deleteBlogPostById db p.id authorId = (.ok true, db') →
      authorId = p.author_id ∧
      db' = { db with posts := db.posts.filter (fun q => decide (q ≠ p)) } ∧
      p ∉ db'.posts) ∧
    (authorId = p.author_id → (∃ a, p.author_id = some a) →
      (∀ c ∈ db.comments, c.post_id ≠ some p.id) →
      deleteBlogPostById db p.id authorId
        = (.ok true, { db with posts := db.posts.filter (fun q => decide (q ≠ p)) })) := by
  have hsel : Sql.selectPostById db p.id = [p] :=
    filter_key_eq_singleton (fun q : PostRow => q.id) db.posts hwf.posts_pk p hp
  have hdel := deletePost_member db hwf p hp authorId
  refine ⟨?_, ?_, ?_⟩
  · intro hne
    have hs := sqlEq_of_ne hne
    refine ⟨?_, ?_⟩
    · simp [deleteBlogPostById, hdel, hs]
    · simp [getBlogPostById, hsel]
  · intro db' h
    by_cases hs : sqlEq p.author_id authorId = true
    · by_cases hc : (db.comments.any fun c => sqlEq c.post_id (some p.id)) = true
      · simp [deleteBlogPostById, hdel, hs, hc] at h
      · simp [deleteBlogPostById, hdel, hs, hc] at h
        refine ⟨(sqlEq_eq_true hs).1, by rw [← h]; simp, by rw [← h]; simp⟩
    · have hs' : sqlEq p.author_id authorId = false := by simpa using hs
      simp [deleteBlogPostById, hdel, hs'] at h
  · intro hown ⟨a, ha⟩ hnoc
    have hs : sqlEq p.author_id authorId = true := by
      rw [hown, ha]; simp [sqlEq]
    have hc : (db.comments.any fun c => sqlEq c.post_id (some p.id)) = false := by
      rw [List.any_eq_false]
      intro c hc
      have := hnoc c hc
      cases hcp : c.post_id <;> simp [sqlEq, hcp] at this ⊢
      exact this
    simp [deleteBlogPostById, hdel, hs, hc]

theorem deleteBlogPostById_ownership_witness :
    exampleDb.WF ∧ examplePost1 ∈ exampleDb.posts ∧
    deleteBlogPostById exampleDb examplePost1.id (some 2) = (.ok false, exampleDb) ∧
    getBlogPostById exampleDb examplePost1.id
      = (.ok (some (attachComments examplePost1
          (Sql.selectCommentsByPost exampleDb examplePost1.id))), exampleDb) :=
  ⟨exampleDb_wf, by simp [exampleDb, examplePost1],
    (deleteBlogPostById_ownership exampleDb exampleDb_wf examplePost1
      (by simp [exampleDb, examplePost1]) (some 2)).1 (by simp [examplePost1])⟩

/-- The rows selected by `loginUser` are the users with that username and that
password, without their password. -/
theorem selectUserByCredentials_eq (db : Db) (username password : String) :
    Sql.selectUserByCredentials db (some username) (some password)
      = (db.users.filter
          (fun u => decide (u.username = username ∧ u.password = password))).map
          Sql.identityOf := by
  unfold Sql.selectUserByCredentials
  congr 1
  apply List.filter_congr
  intro u _
  rw [Bool.eq_iff_iff]
  simp [sqlEqText]

/-- C3: `loginUser(username, password)` returns an identity if and only if exactly one
user row has that username and that password; the identity is the `id`, `username`
and `created_at` of that row (the type has no password field); with no such row or
several it returns null; it never raises and never changes the store. -/
theorem loginUser_exactly_one (db : Db) (username password : String) :
    (∀ u, db.users.filter (fun u => decide (u.username = username ∧ u.password = password))
        = [u] →
      loginUser db (some username) (some password)
        = (.ok (some { id := u.id, username := u.username, created_at := u.created_at }),
            db)) ∧
    ((db.users.filter
        (fun u => decide (u.username = username ∧ u.password = password))).length ≠ 1 →
      loginUser db (some username) (some password) = (.ok none, db)) ∧
    ((∃ ident, loginUser db (some username) (some password) = (.ok (some ident), db)) ↔
      (db.users.filter
        (fun u => decide (u.username = username ∧ u.password = password))).length = 1) := by
  have hsel := selectUserByCredentials_eq db username password
  have h1 : ∀ u, db.users.filter
      (fun u => decide (u.username = username ∧ u.password = password)) = [u] →
      loginUser db (some username) (some password)
        = (.ok (some { id := u.id, username := u.username, created_at := u.created_at }),
            db) := by
    intro u hu
    unfold loginUser
    rw [hsel, hu]
    rfl
  have h2 : (db.users.filter
        (fun u => decide (u.username = username ∧ u.password = password))).length ≠ 1 →
      loginUser db (some username) (some password) = (.ok none, db) := by
    intro hlen
    unfold loginUser
    rw [hsel]
    generalize db.users.filter
      (fun u => decide (u.username = username ∧ u.password = password)) = l at hlen
    match l, hlen with
    | [], _ => rfl
    | [u], h => simp at h
    | u :: v :: rest, _ => rfl
  refine ⟨h1, h2, ?_, ?_⟩
  · rintro ⟨ident, hident⟩
    by_contra hlen
    rw [h2 hlen] at hident
    simp at hident
  · intro hlen
    obtain ⟨u, hu⟩ := List.length_eq_one.mp hlen
    exact ⟨_, h1 u hu⟩

theorem loginUser_exactly_one_witness :
    exampleDb.users.filter (fun u => decide (u.username = "ann" ∧ u.password = "longenough"))
      = [{ id := 1, username := "ann", password := "longenough", created_at := some 10 }] ∧
    loginUser exampleDb (some "ann") (some "longenough")
      = (.ok (some { id := 1, username := "ann", created_at := some 10 }), exampleDb) :=
  ⟨by decide, (loginUser_exactly_one exampleDb "ann" "longenough").1
    { id := 1, username := "ann", password := "longenough", created_at := some 10 }
    (by decide)⟩

/-- `loginUser` only reads the store. -/
theorem loginUser_store (db : Db) (username password : Option String) :
    (loginUser db username password).2 = db := by
  unfold loginUser
  split <;> rfl

/-- C2: on each of the six endpoints that require authorship, a request whose
`username` and `password` headers make `loginUser` return null is answered 401 with
an error body and the store is left as it is, whatever the path id and the body. -/
theorem unauthenticated_is_401 (e : Endpoint)
    (he : e ∈ [Endpoint.postBlogs, Endpoint.getBlogsSelf, Endpoint.deleteBlogsId,
      Endpoint.putBlogsId, Endpoint.patchBlogsIdTitle, Endpoint.postComments])
    (db : Db) (now : Timestamp) (req : Request)
    (hlogin : (loginUser db req.headers_username req.headers_password).1 = .ok none) :
    handle e db now req
      = (.sent { status := 401, body := .error "The username or password is incorrect" },
          db) := by
  have h : loginUser db req.headers_username req.headers_password = (.ok none, db) :=
    Prod.ext hlogin (loginUser_store db _ _)
  simp only [List.mem_cons, List.mem_singleton, List.not_mem_nil, or_false] at he
  rcases he with rfl | rfl | rfl | rfl | rfl | rfl <;>
    simp only [handle, postBlogs, getBlogsSelf, deleteBlogsId, putBlogsId, patchBlogsIdTitle,
      postComments, h, unauthorized]

theorem unauthenticated_is_401_witness :
    (loginUser exampleDb wrongPasswordRequest.headers_username
      wrongPasswordRequest.headers_password).1 = .ok none ∧
    handle .putBlogsId exampleDb 0 wrongPasswordRequest
      = (.sent { status := 401, body := .error "The username or password is incorrect" },
          exampleDb) :=
  ⟨by rfl,
    unauthenticated_is_401 .putBlogsId (by decide) exampleDb 0 wrongPasswordRequest
      (by rfl)⟩

/-- C4: on `POST /users` with a body whose `username` and `password` are valid strings,
a password of length at most 6 (in UTF-16 code units, the `length` of JavaScript) is
answered 400 with `Password must be at least 7 characters` and the store is left as
it is; a password of length at least 7 whose insert reports one row is answered 201
with the `id`, `username` and `created_at` of the new row and no password, the row
being appended to `users`. -/
theorem postUsers_password_length (db : Db) (now : Timestamp) (req : Request)
    (body : List (String × JsVal)) (u pw : String)
    (hbody : req.body = some body)
    (hu : field body "username" = .str u) (hpw : field body "password" = .str pw)
    (hvu : validateString (.str u) = true) (hvpw : validateString (.str pw) = true) :
    (jsLength pw ≤ 6 →
      postUsers db now req
        = (.sent { status := 400, body := .error "Password must be at least 7 characters" },
            db)) ∧
    (7 ≤ jsLength pw → ∀ row db', Sql.insertUser db now u pw = (.ok [row], db') →
      postUsers db now req = (.sent { status := 201, body := .user row }, db') ∧
      row = { id := db.users_id_seq, username := u, created_at := some now } ∧
      db'.users = db.users ++
        [{ id := db.users_id_seq, username := u, password := pw, created_at := some now }] ∧
      db'.posts = db.posts ∧ db'.comments = db.comments) := by
  refine ⟨?_, ?_⟩
  · intro hlen
    simp [postUsers, hbody, hu, hpw, hvu, hvpw, hlen]
  · intro hlen row db' hins
    have hnot : ¬ jsLength pw ≤ 6 := by omega
    refine ⟨?_, ?_⟩
    · simp [postUsers, hbody, hu, hpw, hvu, hvpw, hnot, createUser, hins]
    · unfold Sql.insertUser at hins
      dsimp only at hins
      split at hins
      · simp at hins
      · simp only [Prod.mk.injEq, Except.ok.injEq, List.cons.injEq, and_true] at hins
        obtain ⟨hrow, hdb⟩ := hins
        subst hrow hdb
        simp [Sql.identityOf]

theorem postUsers_password_length_witness :
    (jsLength "short" ≤ 6 ∧
      postUsers exampleDb 0 signupShort
        = (.sent { status := 400, body := .error "Password must be at least 7 characters" },
            exampleDb)) ∧
    (7 ≤ jsLength "longenough" ∧
      postUsers exampleDb 50 signupLong
        = (.sent { status := 201,
                   body := .user { id := 3, username := "cat", created_at := some 50 } },
            { exampleDb with
              users_id_seq := 4,
              users := exampleDb.users ++
                [{ id := 3, username := "cat", password := "longenough",
                   created_at := some 50 }] })) :=
  ⟨⟨by decide,
    (postUsers_password_length exampleDb 0 signupShort
      [("username", .str "ann"), ("password", .str "short")] "ann" "short" rfl
      (by decide) (by decide) (by decide) (by decide)).1 (by decide)⟩,
   ⟨by decide,
    ((postUsers_password_length exampleDb 50 signupLong
      [("username", .str "cat"), ("password", .str "longenough")] "cat" "longenough" rfl
      (by decide) (by decide) (by decide) (by decide)).2 (by decide)
      { id := 3, username := "cat", created_at := some 50 } _ (by rfl)).1⟩⟩

/-- What a successful `createBlogPost` returns and does to the store. -/
theorem createBlogPost_ok (db : Db) (now : Timestamp) (title : String)
    (content : Option String) (authorId : Option Int) (p : PostRow) (db' : Db)
    (h : createBlogPost db now title content authorId = (.ok p, db')) :
    p = { id := db.posts_id_seq, title := title, content := content, created_at := some now,
          likes := 0, author_id := authorId } ∧
    db' = { db with posts_id_seq := db.posts_id_seq + 1, posts := db.posts ++ [p] } ∧
    (∀ q ∈ db.posts, q.id ≠ db.posts_id_seq) := by
  unfold createBlogPost Sql.insertPost at h
  dsimp only at h
  by_cases h1 : (db.posts.any fun p => p.id == db.posts_id_seq) = true
  · simp [h1] at h
  · by_cases h2 : Sql.fkViolated authorId (db.users.map (·.id)) = true
    · simp [h1, h2] at h
    · simp only [h1, h2, if_false, Bool.false_eq_true, Prod.mk.injEq, Except.ok.injEq] at h
      obtain ⟨hp, hdb⟩ := h
      subst hp hdb
      refine ⟨rfl, rfl, ?_⟩
      intro q hq e
      apply h1
      rw [List.any_eq_true]
      exact ⟨q, hq, by simp [e]⟩

/-- C5: in a store that satisfies the schema, when `createBlogPost(title, content,
authorId)` returns the post `p`, `getBlogPostById(p.id)` on the resulting store
returns a post with that title, that content, `author_id = authorId`, `likes = 0` and
an empty list of comments. -/
theorem createBlogPost_then_getBlogPostById (db : Db) (hwf : db.WF) (now : Timestamp)
    (title content : String) (authorId : Int) (p : PostRow) (db' : Db)
    (h : createBlogPost db now title (some content) (some authorId) = (.ok p, db')) :
    getBlogPostById db' p.id
      = (.ok (some { id := p.id, title := title, content := some content,
                     created_at := p.created_at, likes := 0, author_id := some authorId,
                     comments := [] }), db') := by
  obtain ⟨hp, hdb, hfresh⟩ := createBlogPost_ok db now title (some content) (some authorId)
    p db' h
  have hid : p.id = db.posts_id_seq := by rw [hp]
  have hsel : Sql.selectPostById db' p.id = [p] := by
    unfold Sql.selectPostById
    rw [hdb]
    dsimp only
    rw [List.filter_append]
    have : db.posts.filter (fun q => q.id == p.id) = [] := by
      rw [List.filter_eq_nil_iff]
      intro q hq
      have := hfresh q hq
      simpa [hid] using this
    rw [this]
    simp
  have hcom : Sql.selectCommentsByPost db' p.id = [] := by
    unfold Sql.selectCommentsByPost
    have : db'.comments.filter (fun c => sqlEq c.post_id (some p.id)) = [] := by
      rw [List.filter_eq_nil_iff]
      intro c hc hs
      have hc' : c ∈ db.comments := by rw [hdb] at hc; exact hc
      have hpid := (sqlEq_eq_true hs).1
      have hmem := hwf.comments_post_fk c hc' p.id hpid.symm
      rw [List.mem_map] at hmem
      obtain ⟨q, hq, hqid⟩ := hmem
      exact hfresh q hq (hqid.trans hid)
    rw [this]
    rfl
  unfold getBlogPostById
  rw [hsel, hcom]
  simp [attachComments, hp]

theorem createBlogPost_then_getBlogPostById_witness :
    exampleDb.WF ∧
    createBlogPost exampleDb 40 "Hi" (some "x") (some 1)
      = (.ok { id := 3, title := "Hi", content := some "x", created_at := some 40,
               likes := 0, author_id := some 1 },
          { exampleDb with
            posts_id_seq := 4,
            posts := exampleDb.posts ++
              [{ id := 3, title := "Hi", content := some "x", created_at := some 40,
                 likes := 0, author_id := some 1 }] }) ∧
    getBlogPostById
        { exampleDb with
          posts_id_seq := 4,
          posts := exampleDb.posts ++
            [{ id := 3, title := "Hi", content := some "x", created_at := some 40,
               likes := 0, author_id := some 1 }] }
        3
      = (.ok (some { id := 3, title := "Hi", content := some "x", created_at := some 40,
                     likes := 0, author_id := some 1, comments := [] }),
          { exampleDb with
            posts_id_seq := 4,
            posts := exampleDb.posts ++
              [{ id := 3, title := "Hi", content := some "x", created_at := some 40,
                 likes := 0, author_id := some 1 }] }) :=
  ⟨exampleDb_wf, by rfl,
    createBlogPost_then_getBlogPostById exampleDb exampleDb_wf 40 "Hi" "x" 1
      { id := 3, title := "Hi", content := some "x", created_at := some 40,
        likes := 0, author_id := some 1 } _ (by rfl)⟩

theorem maxLikesDb_wf : maxLikesDb.WF := by
  constructor <;> simp [maxLikesDb, INT_MIN, INT_MAX]

/-- `UPDATE posts SET likes = likes + delta WHERE id = $1` succeeds when every new
value fits the `INT` type. -/
theorem addLikes_ok (db : Db) (delta postId : Int)
    (hr : ∀ p ∈ db.posts, p.id = postId →
      INT_MIN ≤ p.likes + delta ∧ p.likes + delta ≤ INT_MAX) :
    Sql.addLikes db delta postId
      = (.ok (db.posts.filter (fun p => p.id == postId)).length,
          { db with posts := db.posts.map (Sql.bump delta postId) }) := by
  unfold Sql.addLikes
  dsimp only
  have : ((db.posts.filter (fun p => p.id == postId)).any
      (fun p => decide (p.likes + delta < INT_MIN ∨ INT_MAX < p.likes + delta))) = false := by
    rw [List.any_eq_false]
    intro p hp
    rw [List.mem_filter] at hp
    have := hr p hp.1 (by simpa using hp.2)
    simp only [decide_eq_true_eq]
    omega
  rw [this]
  rfl

theorem bump_bump (delta postId : Int) (p : PostRow) :
    Sql.bump (-delta) postId (Sql.bump delta postId p) = p := by
  unfold Sql.bump
  by_cases h : p.id = postId
  · subst h
    cases p
    simp
  · simp [h]

theorem map_bump_bump (delta postId : Int) (l : List PostRow) :
    (l.map (Sql.bump delta postId)).map (Sql.bump (-delta) postId) = l := by
  rw [List.map_map]
  conv_rhs => rw [← List.map_id l]
  apply List.map_congr_left
  intro p _
  exact bump_bump delta postId p

theorem filter_id_bump (delta postId : Int) (l : List PostRow) :
    ((l.map (Sql.bump delta postId)).filter (fun p => p.id == postId)).length
      = (l.filter (fun p => p.id == postId)).length := by
  induction l with
  | nil => rfl
  | cons x xs ih =>
    by_cases h : x.id = postId <;> simp [List.filter_cons, Sql.bump, h, ih]

/-- One relative adjustment of `likes` followed by the opposite one, when the value in
between fits the `INT` type. -/
theorem addLikes_roundtrip (db : Db) (hwf : db.WF) (delta postId : Int)
    (hex : ∃ p ∈ db.posts, p.id = postId)
    (hr : ∀ p ∈ db.posts, p.id = postId →
      INT_MIN ≤ p.likes + delta ∧ p.likes + delta ≤ INT_MAX) :
    Sql.addLikes db delta postId
      = (.ok (db.posts.filter (fun p => p.id == postId)).length,
          { db with posts := db.posts.map (Sql.bump delta postId) }) ∧
    Sql.addLikes { db with posts := db.posts.map (Sql.bump delta postId) } (-delta) postId
      = (.ok (db.posts.filter (fun p => p.id == postId)).length, db) ∧
    0 < (db.posts.filter (fun p => p.id == postId)).length := by
  refine ⟨addLikes_ok db delta postId hr, ?_, ?_⟩
  · have h2 := addLikes_ok { db with posts := db.posts.map (Sql.bump delta postId) } (-delta)
      postId (by
        intro q hq hqid
        simp only [List.mem_map] at hq
        obtain ⟨p, hp, rfl⟩ := hq
        have hpid : p.id = postId := by
          unfold Sql.bump at hqid
          split at hqid
          · simpa using hqid
          · exact hqid
        have hrange := hwf.posts_likes_range p hp
        simp only [Sql.bump, hpid, beq_self_eq_true, if_true]
        omega)
    rw [h2]
    simp only [map_bump_bump, filter_id_bump]
  · obtain ⟨p, hp, hpid⟩ := hex
    apply List.length_pos_of_mem
    rw [List.mem_filter]
    exact ⟨hp, by simp [hpid]⟩

/-- C6 fails as stated: on a post whose `likes` is 2147483647, the largest value of
the `INT` column, `likeBlogPostById` raises instead of returning true, and the
`dislikeBlogPostById` that follows leaves `likes` one below the original value. -/
theorem like_dislike_roundtrip_counterexample :
    maxLikesDb.WF ∧ (∃ p ∈ maxLikesDb.posts, p.id = 1) ∧
    likeBlogPostById maxLikesDb 1
      = (.error (.db .numeric_value_out_of_range), maxLikesDb) ∧
    (¬ ∃ db1, likeBlogPostById maxLikesDb 1 = (.ok true, db1) ∧
        dislikeBlogPostById db1 1 = (.ok true, maxLikesDb)) ∧
    dislikeBlogPostById (likeBlogPostById maxLikesDb 1).2 1
      = (.ok true, { maxLikesDb with posts := [
          { id := 1, title := "Popular", content := some "x", created_at := some 20,
            likes := 2147483646, author_id := some 1 }] }) := by
  have h : likeBlogPostById maxLikesDb 1
      = (.error (.db .numeric_value_out_of_range), maxLikesDb) := by rfl
  refine ⟨maxLikesDb_wf, ⟨_, List.mem_singleton.mpr rfl, rfl⟩, h, ?_, by rfl⟩
  rintro ⟨db1, h1, _⟩
  rw [h] at h1
  simp at h1

/-- C6 (amended): in a store that satisfies the schema, for the id of an existing post,
`likeBlogPostById` followed by `dislikeBlogPostById` both return true and leave the
store equal to the initial one when `likes` of that post is below 2147483647; the
same holds for `dislikeBlogPostById` followed by `likeBlogPostById` when `likes` is
above -2147483648 (it may be negative). -/
theorem like_dislike_roundtrip (db : Db) (hwf : db.WF) (postId : Int)
    (hex : ∃ p ∈ db.posts, p.id = postId) :
    ((∀ p ∈ db.posts, p.id = postId → p.likes < INT_MAX) →
      ∃ db1, likeBlogPostById db postId = (.ok true, db1) ∧
        dislikeBlogPostById db1 postId = (.ok true, db)) ∧
    ((∀ p ∈ db.posts, p.id = postId → INT_MIN < p.likes) →
      ∃ db1, dislikeBlogPostById db postId = (.ok true, db1) ∧
        likeBlogPostById db1 postId = (.ok true, db)) := by
  refine ⟨?_, ?_⟩
  · intro hlt
    obtain ⟨h1, h2, hpos⟩ := addLikes_roundtrip db hwf 1 postId hex (by
      intro p hp hpid
      have := hwf.posts_likes_range p hp
      have := hlt p hp hpid
      omega)
    refine ⟨{ db with posts := db.posts.map (Sql.bump 1 postId) }, ?_, ?_⟩
    · unfold likeBlogPostById
      rw [h1]
      simp [hpos]
    · unfold dislikeBlogPostById
      rw [h2]
      simp [hpos]
  · intro hgt
    obtain ⟨h1, h2, hpos⟩ := addLikes_roundtrip db hwf (-1) postId hex (by
      intro p hp hpid
      have := hwf.posts_likes_range p hp
      have := hgt p hp hpid
      omega)
    refine ⟨{ db with posts := db.posts.map (Sql.bump (-1) postId) }, ?_, ?_⟩
    · unfold dislikeBlogPostById
      rw [h1]
      simp [hpos]
    · unfold likeBlogPostById
      have h2' : Sql.addLikes { db with posts := db.posts.map (Sql.bump (-1) postId) } 1 postId
          = (.ok (db.posts.filter (fun p => p.id == postId)).length, db) := h2
      rw [h2']
      simp [hpos]

theorem like_dislike_roundtrip_witness :
    exampleDb.WF ∧ (∃ p ∈ exampleDb.posts, p.id = 2) ∧
    (∀ p ∈ exampleDb.posts, p.id = 2 → p.likes < INT_MAX) ∧
    ∃ db1, likeBlogPostById exampleDb 2 = (.ok true, db1) ∧
      dislikeBlogPostById db1 2 = (.ok true, exampleDb) :=
  ⟨exampleDb_wf, ⟨examplePost2, by simp [exampleDb, examplePost2], rfl⟩,
    by simp [exampleDb, INT_MAX],
    (like_dislike_roundtrip exampleDb exampleDb_wf 2
      ⟨examplePost2, by simp [exampleDb, examplePost2], rfl⟩).1
      (by simp [exampleDb, INT_MAX])⟩

/-- C7 on the code: the fragment `_` is sent to `LIKE` unescaped and matches any one
character, so `getBlogPostsByTitle("_")` returns both posts of `exampleDb` although
neither title contains `_`; a fragment without a wildcard behaves as a substring
search (`script` finds `JavaScript Basics` only). -/
theorem getBlogPostsByTitle_wildcard :
    getBlogPostsByTitle exampleDb "_" = (.ok [examplePost1, examplePost2], exampleDb) ∧
    (¬ (jsToLowerCase "_" <:+: Sql.lower examplePost1.title)) ∧
    (¬ (jsToLowerCase "_" <:+: Sql.lower examplePost2.title)) ∧
    getBlogPostsByTitle exampleDb "script" = (.ok [examplePost1], exampleDb) :=
  ⟨by rfl, by decide, by decide, by rfl⟩

/-- The number of rows hit by `id = $1 AND author_id = $2` is positive exactly when some
row is hit. -/
theorem hit_count_pos (posts : List PostRow) (postId : Int) (authorId : Option Int) :
    decide ((posts.filter
        (fun p => p.id == postId && sqlEq p.author_id authorId)).length > 0)
      = posts.any (fun p => p.id == postId && sqlEq p.author_id authorId) := by
  induction posts with
  | nil => rfl
  | cons x xs ih =>
    by_cases h : (x.id == postId && sqlEq x.author_id authorId) = true
    · simp [List.filter_cons, h]
    · simp only [List.filter_cons, h, List.any_cons, if_false, Bool.false_eq_true] at ih ⊢
      rw [ih]
      simp [h]

/-- In a store that satisfies the schema at most one row has a given id. -/
theorem hit_count_le_one (db : Db) (hwf : db.WF) (postId : Int) (authorId : Option Int) :
    (db.posts.filter
      (fun p => p.id == postId && sqlEq p.author_id authorId)).length ≤ 1 := by
  by_cases hex : ∃ p ∈ db.posts, p.id = postId
  · obtain ⟨p, hp, rfl⟩ := hex
    rw [filter_hit_eq db hwf p hp authorId]
    split <;> simp
  · have : db.posts.filter
        (fun p => p.id == postId && sqlEq p.author_id authorId) = [] := by
      rw [List.filter_eq_nil_iff]
      intro p hp
      have : p.id ≠ postId := fun e => hex ⟨p, hp, e⟩
      simp [this]
    simp [this]

/-- The parameters that the store accepts: no refusal branch of the two `UPDATE`
statements is taken. -/
theorem params_accepted (postId : Int) (authorId : Option Int) (title : String)
    (content : Option String)
    (hid : INT_MIN ≤ postId ∧ postId ≤ INT_MAX)
    (hauthor : ∀ a, authorId = some a → INT_MIN ≤ a ∧ a ≤ INT_MAX)
    (htitle : Char.ofNat 0 ∉ title.toList)
    (hcontent : ∀ c, content = some c → Char.ofNat 0 ∉ c.toList) :
    Sql.textRefused title = false ∧ Sql.nullableTextRefused content = false ∧
    Sql.intRefused postId = false ∧ Sql.nullableIntRefused authorId = false := by
  refine ⟨?_, ?_, ?_, ?_⟩
  · simpa [Sql.textRefused] using htitle
  · cases content with
    | none => rfl
    | some c => simpa [Sql.nullableTextRefused, Sql.textRefused] using hcontent c rfl
  · simp only [Sql.intRefused, decide_eq_false_iff_not]
    omega
  · cases authorId with
    | none => rfl
    | some a =>
      have := hauthor a rfl
      simp only [Sql.nullableIntRefused, Sql.intRefused, decide_eq_false_iff_not]
      omega

/-- `updateBlogPostTitleById` on parameters that the store accepts. -/
theorem updateBlogPostTitleById_accepted (db : Db) (postId : Int) (authorId : Option Int)
    (title : String)
    (hid : INT_MIN ≤ postId ∧ postId ≤ INT_MAX)
    (hauthor : ∀ a, authorId = some a → INT_MIN ≤ a ∧ a ≤ INT_MAX)
    (htitle : Char.ofNat 0 ∉ title.toList) :
    updateBlogPostTitleById db postId authorId title
      = (.ok (db.posts.any (fun p => p.id == postId && sqlEq p.author_id authorId)),
          { db with
            posts := db.posts.map (fun p =>
              if (p.id == postId && sqlEq p.author_id authorId) = true then
                { p with title := title } else p) }) := by
  obtain ⟨h1, _, h3, h4⟩ := params_accepted postId authorId title none hid hauthor htitle
    (by intro c hc; cases hc)
  simp only [updateBlogPostTitleById, Sql.updatePostTitle, h1, h3, h4, Bool.false_eq_true,
    if_false]
  rw [hit_count_pos]

/-- `updateBlogPostById` on parameters that the store accepts. -/
theorem updateBlogPostById_accepted (db : Db) (postId : Int) (authorId : Option Int)
    (title : String) (content : Option String)
    (hid : INT_MIN ≤ postId ∧ postId ≤ INT_MAX)
    (hauthor : ∀ a, authorId = some a → INT_MIN ≤ a ∧ a ≤ INT_MAX)
    (htitle : Char.ofNat 0 ∉ title.toList)
    (hcontent : ∀ c, content = some c → Char.ofNat 0 ∉ c.toList) :
    updateBlogPostById db postId authorId title content
      = (.ok (db.posts.any (fun p => p.id == postId && sqlEq p.author_id authorId)),
          { db with
            posts := db.posts.map (fun p =>
              if (p.id == postId && sqlEq p.author_id authorId) = true then
                { p with title := title, content := content } else p) }) := by
  obtain ⟨h1, h2, h3, h4⟩ := params_accepted postId authorId title content hid hauthor
    htitle hcontent
  simp only [updateBlogPostById, Sql.updatePost, h1, h2, h3, h4, Bool.false_eq_true,
    if_false]
  rw [hit_count_pos]

/-- C8 fails as stated: no post of `exampleDb` has the id 2147483648, yet
`updateBlogPostTitleById` and `updateBlogPostById` raise `integer out of range` for it
instead of returning false, as `PATCH /blogs/2147483648/title` and `PUT
/blogs/2147483648` show; and for a title that holds the character U+0000 they raise
whether a post matches or not. -/
theorem update_counterexample :
    (∀ p ∈ exampleDb.posts, ¬ (p.id = 2147483648 ∧ sqlEq p.author_id (some 1) = true)) ∧
    updateBlogPostTitleById exampleDb 2147483648 (some 1) "x"
      = (.error (.db .numeric_value_out_of_range), exampleDb) ∧
    updateBlogPostById exampleDb 2147483648 (some 1) "x" (some "y")
      = (.error (.db .numeric_value_out_of_range), exampleDb) ∧
    patchBlogsIdTitle exampleDb annTitleBeyondInt
      = (.rejected (.db .numeric_value_out_of_range), exampleDb) ∧
    putBlogsId exampleDb annTitleBeyondInt
      = (.rejected (.db .numeric_value_out_of_range), exampleDb) ∧
    (∀ p ∈ exampleDb.posts, ¬ (p.id = 1 ∧ sqlEq p.author_id (some 2) = true)) ∧
    updateBlogPostTitleById exampleDb 1 (some 2) nulTitle
      = (.error (.db .character_not_in_repertoire), exampleDb) ∧
    patchBlogsIdTitle exampleDb annNulTitle
      = (.rejected (.db .character_not_in_repertoire), exampleDb) :=
  ⟨by decide, by rfl, by rfl, by rfl, by rfl, by decide, by rfl, by rfl⟩

/-- C8 (amended): for a `postId` and an `authorId` within the range of the `INT` type
and a title and a content without the character U+0000,
`updateBlogPostTitleById(postId, authorId, title)` does not raise; it returns whether
some post has that id and that author; users, comments and sequences are as before;
row by row, the posts keep their `id`, `content`, `likes`, `author_id` and
`created_at`, and the title is the new one on the rows with that id and that author
and the old one elsewhere; when no row matches, the result is false and the store is
unchanged; in a store that satisfies the schema at most one row matches.
`updateBlogPostById` does the same for `title` and `content` and keeps `likes`. -/
theorem update_changes_named_columns_only (db : Db) (postId : Int) (authorId : Option Int)
    (title : String) (content : Option String)
    (hid : INT_MIN ≤ postId ∧ postId ≤ INT_MAX)
    (hauthor : ∀ a, authorId = some a → INT_MIN ≤ a ∧ a ≤ INT_MAX)
    (htitle : Char.ofNat 0 ∉ title.toList)
    (hcontent : ∀ c, content = some c → Char.ofNat 0 ∉ c.toList) :
    ((updateBlogPostTitleById db postId authorId title).1
        = .ok (db.posts.any (fun p => p.id == postId && sqlEq p.author_id authorId)) ∧
      (updateBlogPostTitleById db postId authorId title).2.users = db.users ∧
      (updateBlogPostTitleById db postId authorId title).2.comments = db.comments ∧
      (updateBlogPostTitleById db postId authorId title).2.users_id_seq = db.users_id_seq ∧
      (updateBlogPostTitleById db postId authorId title).2.posts_id_seq = db.posts_id_seq ∧
      (updateBlogPostTitleById db postId authorId title).2.comments_id_seq
        = db.comments_id_seq ∧
      List.Forall₂
        (fun p p' => p'.id = p.id ∧ p'.content = p.content ∧ p'.likes = p.likes ∧
          p'.author_id = p.author_id ∧ p'.created_at = p.created_at ∧
          p'.title = if p.id = postId ∧ sqlEq p.author_id authorId = true then title
                     else p.title)
        db.posts (updateBlogPostTitleById db postId authorId title).2.posts ∧
      ((∀ p ∈ db.posts, ¬ (p.id = postId ∧ sqlEq p.author_id authorId = true)) →
        updateBlogPostTitleById db postId authorId title = (.ok false, db))) ∧
    ((updateBlogPostById db postId authorId title content).1
        = .ok (db.posts.any (fun p => p.id == postId && sqlEq p.author_id authorId)) ∧
      (updateBlogPostById db postId authorId title content).2.users = db.users ∧
      (updateBlogPostById db postId authorId title content).2.comments = db.comments ∧
      List.Forall₂
        (fun p p' => p'.id = p.id ∧ p'.likes = p.likes ∧
          p'.author_id = p.author_id ∧ p'.created_at = p.created_at ∧
          (p'.title = if p.id = postId ∧ sqlEq p.author_id authorId = true then title
                      else p.title) ∧
          (p'.content = if p.id = postId ∧ sqlEq p.author_id authorId = true then content
                        else p.content))
        db.posts (updateBlogPostById db postId authorId title content).2.posts ∧
      ((∀ p ∈ db.posts, ¬ (p.id = postId ∧ sqlEq p.author_id authorId = true)) →
        updateBlogPostById db postId authorId title content = (.ok false, db))) ∧
    (db.WF → (db.posts.filter
      (fun p => p.id == postId && sqlEq p.author_id authorId)).length ≤ 1) := by
  have hT := updateBlogPostTitleById_accepted db postId authorId title hid hauthor htitle
  have hP := updateBlogPostById_accepted db postId authorId title content hid hauthor
    htitle hcontent
  have hnone : (∀ p ∈ db.posts, ¬ (p.id = postId ∧ sqlEq p.author_id authorId = true)) →
      db.posts.any (fun p => p.id == postId && sqlEq p.author_id authorId) = false := by
    intro h
    rw [List.any_eq_false]
    intro p hp
    have := h p hp
    simpa using this
  rw [hT, hP]
  refine ⟨⟨rfl, rfl, rfl, rfl, rfl, rfl, ?_, ?_⟩, ⟨rfl, rfl, rfl, ?_, ?_⟩, ?_⟩
  · dsimp only
    rw [List.forall₂_map_right_iff, List.forall₂_same]
    intro p _
    by_cases h : p.id = postId <;> by_cases h' : sqlEq p.author_id authorId = true <;>
      simp [h, h']
  · intro h
    have hmap : db.posts.map (fun p =>
        if (p.id == postId && sqlEq p.author_id authorId) = true then
          { p with title := title } else p) = db.posts := by
      conv_rhs => rw [← List.map_id db.posts]
      apply List.map_congr_left
      intro p hp
      have := h p hp
      have hf : (p.id == postId && sqlEq p.author_id authorId) = false := by
        simpa using this
      simp [hf]
    rw [hnone h, hmap]
  · dsimp only
    rw [List.forall₂_map_right_iff, List.forall₂_same]
    intro p _
    by_cases h : p.id = postId <;> by_cases h' : sqlEq p.author_id authorId = true <;>
      simp [h, h']
  · intro h
    have hmap : db.posts.map (fun p =>
        if (p.id == postId && sqlEq p.author_id authorId) = true then
          { p with title := title, content := content } else p) = db.posts := by
      conv_rhs => rw [← List.map_id db.posts]
      apply List.map_congr_left
      intro p hp
      have := h p hp
      have hf : (p.id == postId && sqlEq p.author_id authorId) = false := by
        simpa using this
      simp [hf]
    rw [hnone h, hmap]
  · intro hwf
    exact hit_count_le_one db hwf postId authorId

theorem update_changes_named_columns_only_witness :
    (INT_MIN ≤ (1 : Int) ∧ (1 : Int) ≤ INT_MAX) ∧
    Char.ofNat 0 ∉ "Renamed".toList ∧
    exampleDb.posts.any (fun p => p.id == 1 && sqlEq p.author_id (some 1)) = true ∧
    (updateBlogPostTitleById exampleDb 1 (some 1) "Renamed").1
      = .ok (exampleDb.posts.any (fun p => p.id == 1 && sqlEq p.author_id (some 1))) ∧
    updateBlogPostTitleById exampleDb 1 (some 1) "Renamed"
      = (.ok true,
          { exampleDb with
            posts := [{ examplePost1 with title := "Renamed" }, examplePost2] }) ∧
    (∀ p ∈ exampleDb.posts, ¬ (p.id = 1 ∧ sqlEq p.author_id (some 2) = true)) ∧
    updateBlogPostTitleById exampleDb 1 (some 2) "Mine now" = (.ok false, exampleDb) :=
  ⟨by decide, by decide, by decide,
    (update_changes_named_columns_only exampleDb 1 (some 1) "Renamed" none (by decide)
      (by intro a h; cases h; decide) (by decide) (by intro c h; cases h)).1.1,
    by rfl, by decide,
    (update_changes_named_columns_only exampleDb 1 (some 2) "Mine now" none (by decide)
      (by intro a h; cases h; decide) (by decide)
      (by intro c h; cases h)).1.2.2.2.2.2.2.2 (by decide)⟩

/-- C9 on the code: a request with valid credentials and a numeric id whose body is
absent is answered 400 `A JSON body must be included` by `POST /blogs`, `POST
/comments` and `POST /users`, which test `req.body` first; `PUT /blogs/:id` and `PATCH
/blogs/:id/title` read `req.body.title` without that test, throw a `TypeError` that
they do not catch, and send no response. -/
theorem body_absent_put_and_patch_throw :
    annNoBody.body = none ∧
    loginUser exampleDb annNoBody.headers_username annNoBody.headers_password
      = (.ok (some { id := 1, username := "ann", created_at := some 10 }), exampleDb) ∧
    validateNumber (.num (parseInt annNoBody.params_id)) = true ∧
    putBlogsId exampleDb annNoBody = (.rejected .typeError, exampleDb) ∧
    patchBlogsIdTitle exampleDb annNoBody = (.rejected .typeError, exampleDb) ∧
    postBlogs exampleDb 0 annNoBody
      = (.sent { status := 400, body := .error "A JSON body must be included" },
          exampleDb) ∧
    postComments exampleDb 0 annNoBody
      = (.sent { status := 400, body := .error "A JSON body must be included" },
          exampleDb) ∧
    postUsers exampleDb 0 annNoBody
      = (.sent { status := 400, body := .error "A JSON body must be included" },
          exampleDb) :=
  ⟨rfl, by rfl, by rfl, by rfl, by rfl, by rfl, by rfl, by rfl⟩

/-- C10 on the code: `DELETE /blogs/1` by the author of post 1, which a comment still
references, makes the store raise a foreign key violation in `deleteBlogPostById`;
the handler has no `try`, so its promise is rejected and it sends no response.  The
same holds for `PATCH /blogs/1/like` on a post at the largest `likes`.  `POST /blogs`
does catch a failing insert and answers 500 with the generic body. -/
theorem repository_failure_not_caught :
    deleteBlogPostById exampleDb 1 (some 1)
      = (.error (.db .foreign_key_violation), exampleDb) ∧
    deleteBlogsId exampleDb annNoBody
      = (.rejected (.db .foreign_key_violation), exampleDb) ∧
    patchBlogsIdLike maxLikesDb annNoBody
      = (.rejected (.db .numeric_value_out_of_range), maxLikesDb) ∧
    createBlogPost staleSeqDb 0 "Hi" (some "x") (some 1)
      = (.error (.db .unique_violation), { staleSeqDb with posts_id_seq := 3 }) ∧
    postBlogs staleSeqDb 0 annCreate
      = (.sent { status := 500, body := .error "An unexpected error occurred." },
          { staleSeqDb with posts_id_seq := 3 }) :=
  ⟨by rfl, by rfl, by rfl, by rfl, by rfl⟩

/-- `UPDATE posts SET likes = likes + delta WHERE id = $1` affects no row and changes
nothing when no post has that id. -/
theorem addLikes_absent (db : Db) (delta postId : Int)
    (habs : ∀ p ∈ db.posts, p.id ≠ postId) :
    Sql.addLikes db delta postId = (.ok 0, db) := by
  have hfil : db.posts.filter (fun p => p.id == postId) = [] := by
    rw [List.filter_eq_nil_iff]
    intro p hp
    simpa using habs p hp
  have hmap : db.posts.map (Sql.bump delta postId) = db.posts := by
    conv_rhs => rw [← List.map_id db.posts]
    apply List.map_congr_left
    intro p hp
    simp [Sql.bump, habs p hp]
  unfold Sql.addLikes
  dsimp only
  rw [hfil, hmap]
  rfl

/-- In a store that satisfies the schema, `likes = likes + delta` on the id of the row
`p` replaces `p` by `p` with the new value and leaves every other row as it is. -/
theorem map_bump_member (db : Db) (hwf : db.WF) (p : PostRow) (hp : p ∈ db.posts)
    (delta : Int) :
    db.posts.map (Sql.bump delta p.id)
      = db.posts.map (fun q => if q = p then { p with likes := p.likes + delta } else q) := by
  apply List.map_congr_left
  intro q hq
  by_cases e : q = p
  · subst e
    simp [Sql.bump]
  · have : q.id ≠ p.id := fun h =>
      e (eq_of_key_eq (fun q : PostRow => q.id) db.posts hwf.posts_pk p q hp hq h)
    simp [Sql.bump, e, this]

/-- The statement of `likeBlogPostById` and `dislikeBlogPostById` on the id of a row `p`
whose new value of `likes` fits the `INT` type. -/
theorem addLikes_member (db : Db) (hwf : db.WF) (p : PostRow) (hp : p ∈ db.posts)
    (delta : Int) (hfit : INT_MIN ≤ p.likes + delta ∧ p.likes + delta ≤ INT_MAX) :
    Sql.addLikes db delta p.id
      = (.ok 1,
          { db with
            posts := db.posts.map (fun q =>
              if q = p then { p with likes := p.likes + delta } else q) }) := by
  have h := addLikes_ok db delta p.id (by
    intro q hq hqid
    have := eq_of_key_eq (fun q : PostRow => q.id) db.posts hwf.posts_pk p q hp hq hqid
    subst this
    exact hfit)
  rw [h, filter_key_eq_singleton (fun q : PostRow => q.id) db.posts hwf.posts_pk p hp,
    map_bump_member db hwf p hp delta]
  rfl

/-- C11 fails as stated: on a post whose `likes` is 2147483647 `likeBlogPostById`
raises instead of returning true and `PATCH /blogs/1/like` sends no 204; and for the
numeric id 2147483648, which no post has, the store refuses the parameter of the `INT`
column `id`, so `PATCH /blogs/2147483648/like` and `/dislike` send no 404. -/
theorem like_by_id_counterexample :
    (∃ p ∈ maxLikesDb.posts, p.id = 1) ∧
    likeBlogPostById maxLikesDb 1
      = (.error (.db .numeric_value_out_of_range), maxLikesDb) ∧
    patchBlogsIdLike maxLikesDb annNoBody
      = (.rejected (.db .numeric_value_out_of_range), maxLikesDb) ∧
    (∀ p ∈ exampleDb.posts, p.id ≠ 2147483648) ∧
    validateNumber (.num (parseInt requestBeyondInt.params_id)) = true ∧
    patchBlogsIdLike exampleDb requestBeyondInt
      = (.rejected (.db .numeric_value_out_of_range), exampleDb) ∧
    patchBlogsIdDislike exampleDb requestBeyondInt
      = (.rejected (.db .numeric_value_out_of_range), exampleDb) :=
  ⟨⟨_, List.mem_singleton.mpr rfl, rfl⟩, by rfl, by rfl, by decide, by rfl, by rfl, by rfl⟩

/-- C11 (amended): in a store that satisfies the schema, for a path id that parses to a
number `postId` within the `INT` range: when no post has that id, `likeBlogPostById`
and `dislikeBlogPostById` return false, the store is unchanged and both routes answer
404; when the post `p` has that id and its `likes` is below 2147483647,
`likeBlogPostById` returns true, the route answers 204 and the store differs in that
`p` has `likes + 1`; when its `likes` is above -2147483648, the same holds for
`dislikeBlogPostById` with `likes - 1`.  Every other post is as before. -/
theorem like_by_id (db : Db) (hwf : db.WF) (req : Request) (postId : Int)
    (hreq : parseInt req.params_id = .int postId)
    (hrange : INT_MIN ≤ postId ∧ postId ≤ INT_MAX) :
    ((∀ p ∈ db.posts, p.id ≠ postId) →
      likeBlogPostById db postId = (.ok false, db) ∧
      dislikeBlogPostById db postId = (.ok false, db) ∧
      patchBlogsIdLike db req
        = (.sent { status := 404,
                   body := .error ("A post with id '" ++ toString postId ++
                     "' does not exist") }, db) ∧
      patchBlogsIdDislike db req
        = (.sent { status := 404,
                   body := .error ("A post with id '" ++ toString postId ++
                     "' does not exist") }, db)) ∧
    (∀ p ∈ db.posts, p.id = postId →
      (p.likes < INT_MAX →
        likeBlogPostById db postId
          = (.ok true,
              { db with
                posts := db.posts.map (fun q =>
                  if q = p then { p with likes := p.likes + 1 } else q) }) ∧
        patchBlogsIdLike db req
          = (.sent { status := 204, body := .empty },
              { db with
                posts := db.posts.map (fun q =>
                  if q = p then { p with likes := p.likes + 1 } else q) })) ∧
      (INT_MIN < p.likes →
        dislikeBlogPostById db postId
          = (.ok true,
              { db with
                posts := db.posts.map (fun q =>
                  if q = p then { p with likes := p.likes + -1 } else q) }) ∧
        patchBlogsIdDislike db req
          = (.sent { status := 204, body := .empty },
              { db with
                posts := db.posts.map (fun q =>
                  if q = p then { p with likes := p.likes + -1 } else q) }))) := by
  have hparam : intParam (.int postId) = .ok postId := by
    simp [intParam, hrange]
  have hvalid : validateNumber (.num (.int postId)) = true := rfl
  refine ⟨?_, ?_⟩
  · intro habs
    have hl : likeBlogPostById db postId = (.ok false, db) := by
      simp [likeBlogPostById, addLikes_absent db 1 postId habs]
    have hd : dislikeBlogPostById db postId = (.ok false, db) := by
      simp [dislikeBlogPostById, addLikes_absent db (-1) postId habs]
    refine ⟨hl, hd, ?_, ?_⟩
    · simp only [patchBlogsIdLike, hreq, hvalid, hparam, hl]
      rfl
    · simp only [patchBlogsIdDislike, hreq, hvalid, hparam, hd]
      rfl
  · intro p hp hpid
    subst hpid
    have hr := hwf.posts_likes_range p hp
    refine ⟨?_, ?_⟩
    · intro hlt
      have hl : likeBlogPostById db p.id
          = (.ok true,
              { db with
                posts := db.posts.map (fun q =>
                  if q = p then { p with likes := p.likes + 1 } else q) }) := by
        simp [likeBlogPostById, addLikes_member db hwf p hp 1 (by omega)]
      refine ⟨hl, ?_⟩
      simp only [patchBlogsIdLike, hreq, hvalid, hparam, hl]
      rfl
    · intro hgt
      have hd : dislikeBlogPostById db p.id
          = (.ok true,
              { db with
                posts := db.posts.map (fun q =>
                  if q = p then { p with likes := p.likes + -1 } else q) }) := by
        simp [dislikeBlogPostById, addLikes_member db hwf p hp (-1) (by omega)]
      refine ⟨hd, ?_⟩
      simp only [patchBlogsIdDislike, hreq, hvalid, hparam, hd]
      rfl

theorem like_by_id_witness :
    exampleDb.WF ∧ parseInt request999999.params_id = .int 999999 ∧
    (INT_MIN ≤ 999999 ∧ (999999 : Int) ≤ INT_MAX) ∧
    (∀ p ∈ exampleDb.posts, p.id ≠ 999999) ∧
    likeBlogPostById exampleDb 999999 = (.ok false, exampleDb) ∧
    dislikeBlogPostById exampleDb 999999 = (.ok false, exampleDb) ∧
    patchBlogsIdLike exampleDb request999999
      = (.sent { status := 404,
                 body := .error ("A post with id '" ++ toString (999999 : Int) ++
                   "' does not exist") }, exampleDb) ∧
    patchBlogsIdDislike exampleDb request999999
      = (.sent { status := 404,
                 body := .error ("A post with id '" ++ toString (999999 : Int) ++
                   "' does not exist") }, exampleDb) :=
  ⟨exampleDb_wf, by rfl, by decide, by decide,
    (like_by_id exampleDb exampleDb_wf request999999 999999 (by rfl) (by decide)).1
      (by decide)⟩

/-- The job of `PATCH /blogs/:id/like`, run with the store to itself, is the handler. -/
theorem patchBlogsIdLikeJob_run (db : Db) (req : Request) :
    (patchBlogsIdLikeJob req).run db = patchBlogsIdLike db req := by
  unfold patchBlogsIdLikeJob patchBlogsIdLike
  dsimp only
  split
  · rfl
  · split
    · rfl
    · rename_i i _
      simp only [Job.run, likeBlogPostById]
      rcases h : Sql.addLikes db 1 i with ⟨r, db'⟩
      cases r with
      | error e => rfl
      | ok n =>
        by_cases hn : n > 0
        · simp [afterLikes, hn, Job.run]
        · simp [afterLikes, hn, Job.run]

/-- The job of `PATCH /blogs/:id/dislike`, run with the store to itself, is the
handler. -/
theorem patchBlogsIdDislikeJob_run (db : Db) (req : Request) :
    (patchBlogsIdDislikeJob req).run db = patchBlogsIdDislike db req := by
  unfold patchBlogsIdDislikeJob patchBlogsIdDislike
  dsimp only
  split
  · rfl
  · split
    · rfl
    · rename_i i _
      simp only [Job.run, dislikeBlogPostById]
      rcases h : Sql.addLikes db (-1) i with ⟨r, db'⟩
      cases r with
      | error e => rfl
      | ok n =>
        by_cases hn : n > 0
        · simp [afterLikes, hn, Job.run]
        · simp [afterLikes, hn, Job.run]

/-- A system that no turn changes stays as it is under every schedule. -/
theorem runSchedule_fixed (sf : Sys) (hff : ∀ w, sf.turn w = sf) (schedule : List Bool) :
    runSchedule sf schedule = sf := by
  induction schedule with
  | nil => rfl
  | cons w rest ih =>
    show runSchedule (sf.turn w) rest = sf
    rw [hff w, ih]

/-- A system in which only the turns `w` make a move, and that move leads to a fixed
system, reaches it under every schedule that holds `w`. -/
theorem runSchedule_one_left (s sf : Sys) (w : Bool) (hstay : s.turn (!w) = s)
    (hmove : s.turn w = sf) (hff : ∀ v, sf.turn v = sf) (schedule : List Bool)
    (hw : w ∈ schedule) : runSchedule s schedule = sf := by
  induction schedule with
  | nil => simp at hw
  | cons v rest ih =>
    show runSchedule (s.turn v) rest = sf
    by_cases hv : v = w
    · subst hv
      rw [hmove, runSchedule_fixed sf hff]
    · have hv' : v = !w := by
        cases v <;> cases w <;> simp at hv ⊢
      rw [hv', hstay]
      apply ih
      rcases List.mem_cons.mp hw with e | e
      · exact absurd e.symm hv
      · exact e

/-- Two requests with one turn each to take: every schedule that gives a turn to both
ends in the same system when both orders do. -/
theorem runSchedule_two_calls (s0 sa sb sf : Sys)
    (h0f : s0.turn false = sa) (h0t : s0.turn true = sb)
    (haf : sa.turn false = sa) (hat : sa.turn true = sf)
    (hbt : sb.turn true = sb) (hbf : sb.turn false = sf)
    (hff : ∀ w, sf.turn w = sf) (schedule : List Bool)
    (hf : false ∈ schedule) (ht : true ∈ schedule) :
    runSchedule s0 schedule = sf := by
  cases schedule with
  | nil => simp at hf
  | cons w rest =>
    show runSchedule (s0.turn w) rest = sf
    cases w with
    | false =>
      rw [h0f]
      exact runSchedule_one_left sa sf true haf hat hff rest (by simpa using ht)
    | true =>
      rw [h0t]
      exact runSchedule_one_left sb sf false hbt hbf hff rest (by simpa using hf)

theorem bump_add (a b postId : Int) (p : PostRow) :
    Sql.bump b postId (Sql.bump a postId p) = Sql.bump (a + b) postId p := by
  unfold Sql.bump
  by_cases h : p.id = postId
  · simp [h, Int.add_assoc]
  · simp [h]

/-- Two statements `likes = likes + 1` on the id of a row `p` of a store that satisfies
the schema, when `likes + 2` fits the `INT` type: each affects one row, and together
they replace `p` by `p` with `likes + 2`. -/
theorem addLikes_twice (db : Db) (hwf : db.WF) (p : PostRow) (hp : p ∈ db.posts)
    (hlikes : p.likes + 2 ≤ INT_MAX) :
    Sql.addLikes db 1 p.id
      = (.ok 1, { db with posts := db.posts.map (Sql.bump 1 p.id) }) ∧
    Sql.addLikes { db with posts := db.posts.map (Sql.bump 1 p.id) } 1 p.id
      = (.ok 1,
          { db with
            posts := db.posts.map (fun q =>
              if q = p then { p with likes := p.likes + 2 } else q) }) := by
  have hr := hwf.posts_likes_range p hp
  have hone := filter_key_eq_singleton (fun q : PostRow => q.id) db.posts hwf.posts_pk p hp
  have huniq : ∀ q ∈ db.posts, q.id = p.id → q = p := fun q hq e =>
    eq_of_key_eq (fun q : PostRow => q.id) db.posts hwf.posts_pk p q hp hq e
  have h1 := addLikes_ok db 1 p.id (by
    intro q hq hqid
    rw [huniq q hq hqid]
    omega)
  have h2 := addLikes_ok { db with posts := db.posts.map (Sql.bump 1 p.id) } 1 p.id (by
    intro q' hq' hqid
    simp only [List.mem_map] at hq'
    obtain ⟨q, hq, rfl⟩ := hq'
    have hid : q.id = p.id := by
      unfold Sql.bump at hqid
      split at hqid
      · simpa using hqid
      · exact hqid
    rw [huniq q hq hid]
    simp only [Sql.bump, beq_self_eq_true, if_true]
    omega)
  refine ⟨?_, ?_⟩
  · rw [h1, hone]
    rfl
  · rw [h2]
    simp only [filter_id_bump, hone, List.map_map, List.length_singleton]
    have hmap : db.posts.map (Sql.bump 1 p.id ∘ Sql.bump 1 p.id)
        = db.posts.map (fun q => if q = p then { p with likes := p.likes + 2 } else q) := by
      rw [← map_bump_member db hwf p hp 2]
      apply List.map_congr_left
      intro q _
      exact bump_add 1 1 p.id q
    rw [hmap]

/-- C12 fails as stated: on a post whose `likes` is 2147483646, in either order of the
two store calls the first `PATCH /blogs/1/like` answers 204 and the second raises
`integer out of range` and sends nothing; `likes` has increased by 1, not 2. -/
theorem concurrent_likes_counterexample :
    (∃ p ∈ nearMaxLikesDb.posts, p.id = 1 ∧ p.likes = 2147483646) ∧
    (runSchedule { db := nearMaxLikesDb, first := patchBlogsIdLikeJob annNoBody,
                   second := patchBlogsIdLikeJob annNoBody } [false, true]).first.outcome
      = some (.sent { status := 204, body := .empty }) ∧
    (runSchedule { db := nearMaxLikesDb, first := patchBlogsIdLikeJob annNoBody,
                   second := patchBlogsIdLikeJob annNoBody } [false, true]).second.outcome
      = some (.rejected (.db .numeric_value_out_of_range)) ∧
    (runSchedule { db := nearMaxLikesDb, first := patchBlogsIdLikeJob annNoBody,
                   second := patchBlogsIdLikeJob annNoBody } [false, true]).db
      = maxLikesDb ∧
    (runSchedule { db := nearMaxLikesDb, first := patchBlogsIdLikeJob annNoBody,
                   second := patchBlogsIdLikeJob annNoBody } [true, false]).first.outcome
      = some (.rejected (.db .numeric_value_out_of_range)) ∧
    (runSchedule { db := nearMaxLikesDb, first := patchBlogsIdLikeJob annNoBody,
                   second := patchBlogsIdLikeJob annNoBody } [true, false]).second.outcome
      = some (.sent { status := 204, body := .empty }) ∧
    (runSchedule { db := nearMaxLikesDb, first := patchBlogsIdLikeJob annNoBody,
                   second := patchBlogsIdLikeJob annNoBody } [true, false]).db
      = maxLikesDb :=
  ⟨⟨_, List.mem_singleton.mpr rfl, rfl, rfl⟩, by rfl, by rfl, by rfl, by rfl, by rfl, by rfl⟩

/-- C12 (amended): in a store that satisfies the schema, for an existing post `p` whose
`likes` is at most 2147483645, two `PATCH /blogs/:id/like` requests on it, each one
store call that the store runs as a whole, end under every schedule that gives both
a turn with both answered 204 and with `p` at `likes + 2`, every other row as
before. -/
theorem concurrent_likes (db : Db) (hwf : db.WF) (p : PostRow) (hp : p ∈ db.posts)
    (hrange : INT_MIN ≤ p.id ∧ p.id ≤ INT_MAX) (hlikes : p.likes + 2 ≤ INT_MAX)
    (r1 r2 : Request) (h1 : parseInt r1.params_id = .int p.id)
    (h2 : parseInt r2.params_id = .int p.id) (schedule : List Bool)
    (hf : false ∈ schedule) (ht : true ∈ schedule) :
    runSchedule { db := db, first := patchBlogsIdLikeJob r1,
                  second := patchBlogsIdLikeJob r2 } schedule
      = { db :=
            { db with
              posts := db.posts.map (fun q =>
                if q = p then { p with likes := p.likes + 2 } else q) },
          first := .done (.sent { status := 204, body := .empty }),
          second := .done (.sent { status := 204, body := .empty }) } := by
  have hparam : intParam (.int p.id) = .ok p.id := by
    simp [intParam, hrange]
  have hjob : ∀ r : Request, parseInt r.params_id = .int p.id →
      patchBlogsIdLikeJob r
        = .call (fun db => Sql.addLikes db 1 p.id) (afterLikes (.int p.id)) := by
    intro r hr
    unfold patchBlogsIdLikeJob
    simp only [hr, hparam]
    rfl
  obtain ⟨ha, hb⟩ := addLikes_twice db hwf p hp hlikes
  have hdone : afterLikes (.int p.id) (.ok 1)
      = .done (.sent { status := 204, body := .empty }) := by
    simp [afterLikes]
  rw [hjob r1 h1, hjob r2 h2]
  apply runSchedule_two_calls _
    { db := { db with posts := db.posts.map (Sql.bump 1 p.id) },
      first := .done (.sent { status := 204, body := .empty }),
      second := .call (fun db => Sql.addLikes db 1 p.id) (afterLikes (.int p.id)) }
    { db := { db with posts := db.posts.map (Sql.bump 1 p.id) },
      first := .call (fun db => Sql.addLikes db 1 p.id) (afterLikes (.int p.id)),
      second := .done (.sent { status := 204, body := .empty }) }
    _ ?_ ?_ ?_ ?_ ?_ ?_ ?_ schedule hf ht
  · simp [Sys.turn, Job.turn, ha, hdone]
  · simp [Sys.turn, Job.turn, ha, hdone]
  · simp [Sys.turn, Job.turn]
  · simp [Sys.turn, Job.turn, hb, hdone]
  · simp [Sys.turn, Job.turn]
  · simp [Sys.turn, Job.turn, hb, hdone]
  · intro w
    cases w <;> simp [Sys.turn, Job.turn]

theorem concurrent_likes_witness :
    exampleDb.WF ∧ examplePost2 ∈ exampleDb.posts ∧
    (INT_MIN ≤ examplePost2.id ∧ examplePost2.id ≤ INT_MAX) ∧
    examplePost2.likes + 2 ≤ INT_MAX ∧
    parseInt requestPost2.params_id = .int examplePost2.id ∧
    runSchedule { db := exampleDb, first := patchBlogsIdLikeJob requestPost2,
                  second := patchBlogsIdLikeJob requestPost2 } [true, false]
      = { db :=
            { exampleDb with
              posts := exampleDb.posts.map (fun q =>
                if q = examplePost2 then
                  { examplePost2 with likes := examplePost2.likes + 2 } else q) },
          first := .done (.sent { status := 204, body := .empty }),
          second := .done (.sent { status := 204, body := .empty }) } :=
  ⟨exampleDb_wf, by decide, by decide, by decide, by rfl,
    concurrent_likes exampleDb exampleDb_wf examplePost2 (by decide) (by decide) (by decide)
      requestPost2 requestPost2 (by rfl) (by rfl) [true, false] (by decide) (by decide)⟩

end BloggApi
